import Mathlib

/-!
Verification of the PLS-DA repository (files src/pls-da/IO.py and
src/pls-da/plot.py, with the absent model module reconstructed from the
specification).  Numeric data is modelled with exact rationals standing in
for Python floats; Python exceptions are modelled with an explicit error
type and the Except monad.
-/

set_option maxRecDepth 4000

deriving instance DecidableEq for Except

attribute [local semireducible] Rat.add Rat.sub Rat.mul Rat.inv

namespace PLSDA

/-- Kinds of Python exceptions raised by the embedded code. -/
inductive PyErr where
  | valueError (msg : String)
  | indexError
  | invalidConfiguration
  | linAlgError
  | notImplementedError
  | exception (msg : String)
deriving DecidableEq, Repr

/-- Boolean test distinguishing a ValueError from every other exception. -/
def isValueError {α : Type} : Except PyErr α → Bool
  | .error (.valueError _) => true
  | _ => false

/-- Boolean success test on an embedded Python result. -/
def isOkE {α : Type} : Except PyErr α → Bool
  | .ok _ => true
  | .error _ => false

/-- A matrix is a row-major list of rows of rationals. -/
abbrev Mat := List (List ℚ)

/-- Dot product of two vectors, truncating at the shorter one. -/
def dotQ (a b : List ℚ) : ℚ := (List.zipWith (· * ·) a b).sum

/-- Pointwise difference of two vectors. -/
def vecSub (a b : List ℚ) : List ℚ := List.zipWith (· - ·) a b

/-- Multiply every entry of a vector by a scalar. -/
def vecScale (c : ℚ) (v : List ℚ) : List ℚ := v.map (fun a => c * a)

/-- Number of columns of a row-major matrix (length of the first row). -/
def ncols (M : Mat) : ℕ := (M.headD []).length

/-- Column j of a row-major matrix, with 0 for entries of short rows. -/
def colOf (M : Mat) (j : ℕ) : List ℚ := M.map (fun r => r.getD j 0)

/-- Matrix-vector product M * v. -/
def matVec (M : Mat) (v : List ℚ) : List ℚ := M.map (fun r => dotQ r v)

/-- Transposed matrix-vector product, Mᵀ * v. -/
def matTvec (M : Mat) (v : List ℚ) : List ℚ :=
  (List.range (ncols M)).map (fun j => dotQ (colOf M j) v)

/-- Newton iteration for the integer square root, descending from a
guess above the root until the sequence stops decreasing. -/
def isqrtGo (n : ℕ) : ℕ → ℕ → ℕ
  | 0, x => x
  | fuel + 1, x =>
    let x' := (x + n / x) / 2
    if x' < x then isqrtGo n fuel x' else x

/-- Integer square root (floor of the real square root), by Newton
iteration from an initial guess at least the root; the fuel covers any
argument below 2 to the 600. -/
def isqrt (n : ℕ) : ℕ := if n ≤ 1 then n else isqrtGo n 600 (n / 2 + 1)

/-- Rational square root surrogate for the floating square root, exact on
perfect squares of the scaled argument and accurate to about 12 decimal
digits otherwise. -/
def sqrtQ (q : ℚ) : ℚ :=
  if q ≤ 0 then 0
  else ((isqrt (q.num.toNat * q.den * 10 ^ 24) : ℚ) / ((q.den : ℚ) * 10 ^ 12))

/-- Numeric value of a list of decimal digit characters. -/
def natOfDigits (ds : List Char) : ℕ :=
  ds.foldl (fun acc c => acc * 10 + (c.toNat - 48)) 0

/-- Exponent tail of a Python float literal (characters after e or E):
an optional sign followed by at least one digit and nothing else. -/
def pyFloatExp (cs : List Char) : Option ℤ :=
  let p : ℤ × List Char :=
    match cs with
    | '+' :: t => (1, t)
    | '-' :: t => (-1, t)
    | t => (1, t)
  let ds := p.2.takeWhile Char.isDigit
  let rest := p.2.dropWhile Char.isDigit
  if ds.length = 0 ∨ rest.length ≠ 0 then none
  else some (p.1 * (natOfDigits ds : ℤ))

/-- Strip leading and trailing whitespace from a character list, as the
float constructor does on its argument. -/
def stripWs (cs : List Char) : List Char :=
  ((cs.dropWhile Char.isWhitespace).reverse.dropWhile Char.isWhitespace).reverse

/-- Model of the Python float() constructor on a string: optional
surrounding whitespace, optional sign, digits with an optional decimal
point (at least one digit overall), and an optional exponent.  The
special values inf and nan lie outside the rational model of floats and
are not parsed. -/
def pyFloat? (s : String) : Option ℚ :=
  let cs := stripWs s.data
  let p : ℚ × List Char :=
    match cs with
    | '+' :: t => (1, t)
    | '-' :: t => (-1, t)
    | t => (1, t)
  let ip := p.2.takeWhile Char.isDigit
  let afterInt := p.2.dropWhile Char.isDigit
  let q : List Char × List Char :=
    match afterInt with
    | '.' :: t => (t.takeWhile Char.isDigit, t.dropWhile Char.isDigit)
    | t => ([], t)
  let fp := q.1
  if ip.length + fp.length = 0 then none
  else
    let mant : ℚ := (natOfDigits (ip ++ fp) : ℚ) / ((10 : ℚ) ^ fp.length)
    match q.2 with
    | [] => some (p.1 * mant)
    | 'e' :: t => (pyFloatExp t).map (fun z => p.1 * mant * (10 : ℚ) ^ z)
    | 'E' :: t => (pyFloatExp t).map (fun z => p.1 * mant * (10 : ℚ) ^ z)
    | _ => none

/-- A parsed CSV cell: either a float (cells accepted by float() after
replacing comma with dot) or the original string. -/
inductive Cell where
  | num (q : ℚ)
  | str (s : String)
deriving DecidableEq, Repr

/-- Replace every occurrence of a character by another, as the Python
replace call with one-character arguments. -/
def pyReplace (old new : Char) (s : String) : String :=
  String.mk (s.data.map (fun ch => if ch = old then new else ch))

/-- Cell conversion of CSV.parse (src/pls-da/IO.py lines 227-234): a cell
whose text parses as a float after replacing comma with dot becomes that
float, every other cell keeps its original string. -/
def convCell (c : String) : Cell :=
  match pyFloat? (pyReplace ',' '.' c) with
  | some q => .num q
  | none => .str c

/-- Strip leading and trailing newline characters, as the Python
strip call on a line does. -/
def stripNl (s : String) : String :=
  String.mk (((s.data.dropWhile (· = '\n')).reverse.dropWhile (· = '\n')).reverse)

/-- Split a character list at every occurrence of a separator, keeping
empty pieces, as the Python split call with a one-character separator. -/
def splitCharAux (sep : Char) : List Char → List Char → List (List Char)
  | [], acc => [acc.reverse]
  | c :: cs, acc =>
    if c = sep then acc.reverse :: splitCharAux sep cs []
    else splitCharAux sep cs (c :: acc)

/-- Split a string on a one-character separator, as the Python split
call; the result is never empty. -/
def splitChar (sep : Char) (s : String) : List String :=
  (splitCharAux sep s.data []).map String.mk

/-- Index of the first body row whose cell count differs from the header
cell count, if any (the row at which CSV.parse raises). -/
def firstBadRow (hlen : ℕ) : List (List String) → Option ℕ
  | [] => none
  | r :: rs =>
    if r.length ≠ hlen then some 0 else (firstBadRow hlen rs).map (· + 1)

/-- Embedding of CSV.parse (src/pls-da/IO.py lines 201-235).  The file is
modelled as an optional list of lines: none models an unreadable file
(the IOError branch), some lines models the sequence produced by
readline and readlines with line terminators already split off.  The
result is the header (first line split on the separator) and the body
(remaining lines split on the separator, with float-like cells
converted), after the checks on row and column counts. -/
def CSVparseLines (sep : Char) (lines : List String) :
    Except PyErr (List String × List (List Cell)) :=
  if (splitChar sep (stripNl (lines.headD ""))).length < 1
      ∨ (lines.tail.map (fun l => splitChar sep (stripNl l))).length < 1 then
    .error (.exception "Too few columns or rows")
  else
    match firstBadRow (splitChar sep (stripNl (lines.headD ""))).length
        (lines.tail.map (fun l => splitChar sep (stripNl l))) with
    | some i => .error (.exception ("Bad number of columns in body row " ++ toString i))
    | none =>
      .ok (splitChar sep (stripNl (lines.headD "")),
        (lines.tail.map (fun l => splitChar sep (stripNl l))).map (List.map convCell))

/-- Top of CSV.parse: an unreadable file (the IOError branch) raises,
a readable one is handled line by line. -/
def CSVparse (file : Option (List String)) (sep : Char := ';') :
    Except PyErr (List String × List (List Cell)) :=
  match file with
  | none => .error (.exception "File not existent, not readable or corrupted.")
  | some lines => CSVparseLines sep lines

/-- A parsed table: header names plus body cells, the shape CSV.parse
returns and save_matrix writes. -/
structure Table where
  header : List String
  body : List (List Cell)
deriving DecidableEq, Repr

/-- Lexicographic code-point comparison of character lists, the order
Python uses on strings. -/
def charListLe : List Char → List Char → Bool
  | [], _ => true
  | _ :: _, [] => false
  | a :: as, b :: bs =>
    if a.toNat < b.toNat then true
    else if b.toNat < a.toNat then false
    else charListLe as bs

/-- Python string comparison by code points. -/
def strLe (a b : String) : Bool := charListLe a.data b.data

/-- Insert a string into a list sorted in nondecreasing order. -/
def insertSorted (s : String) : List String → List String
  | [] => [s]
  | t :: ts => if strLe s t then s :: t :: ts else t :: insertSorted s ts

/-- Sort a list of strings in nondecreasing order, as Python sorted does. -/
def sortStr (l : List String) : List String := l.foldr insertSorted []

/-- Remove duplicates keeping the first occurrence of each element. -/
def dedupFirst (l : List String) : List String :=
  l.foldl (fun acc s => if s ∈ acc then acc else acc ++ [s]) []

/-- String carried by a cell when it is used as a category label. -/
def cellToStr : Cell → String
  | .str s => s
  | .num q => toString q

/-- Numeric value of a cell; a non-numeric cell in a predictor column is
a malformed dataset (the Python code would fail later inside numpy) and
is modelled as 0. -/
def cellToQ : Cell → ℚ
  | .num q => q
  | .str _ => 0

/-- Modelled from the spec: the Dataset Container of model.py (absent
from the source slice), spec sections 3 and 6.  It holds the raw parsed
table, the derived category labels, the predictor matrix x, the one-hot
response matrix y, the means recorded by centering, and the two
preprocessing flags. -/
structure TrainingSet where
  header : List String
  body : List (List Cell)
  categorical_y : List String
  categories : List String
  x : Mat
  y : Mat
  xMeans : List ℚ
  yMeans : List ℚ
  centered : Bool
  normalized : Bool
deriving DecidableEq, Repr

/-- Modelled from the spec: construction of a Dataset Container from an
already-parsed header and body (spec section 6).  The first column of
the body holds the sample category label; the remaining columns form x;
y is the one-hot indicator of the category against the sorted distinct
category labels. -/
def mkTrainingSet (t : Table) : TrainingSet :=
  let cy := t.body.map (fun row => cellToStr (row.headD (.str "")))
  let cats := sortStr (dedupFirst cy)
  { header := t.header
    body := t.body
    categorical_y := cy
    categories := cats
    x := t.body.map (fun row => row.tail.map cellToQ)
    y := cy.map (fun c => cats.map (fun k => if c = k then (1 : ℚ) else 0))
    xMeans := []
    yMeans := []
    centered := false
    normalized := false }

/-- Column-wise means of a matrix (dividing by the row count; the mean of
an empty column is 0, standing in for the numpy nan). -/
def colMeans (M : Mat) : List ℚ :=
  (List.range (ncols M)).map (fun j => (colOf M j).sum / (M.length : ℚ))

/-- Subtract the column mean from every column. -/
def centerMat (M : Mat) : Mat :=
  let mu := colMeans M
  M.map (fun r => List.zipWith (· - ·) r mu)

/-- Population standard deviation of a column. -/
def colSd (col : List ℚ) : ℚ :=
  let mu := col.sum / (col.length : ℚ)
  sqrtQ (((col.map (fun a => (a - mu) ^ 2)).sum) / (col.length : ℚ))

/-- Divide every column by its standard deviation, leaving columns whose
deviation is zero unscaled (the zero-variance guard of spec 4.1). -/
def normalizeMat (M : Mat) : Mat :=
  let sds := (List.range (ncols M)).map (fun j => colSd (colOf M j))
  M.map (fun r => List.zipWith (fun a s => if s = 0 then a else a / s) r sds)

/-- Modelled from the spec: center() of the Dataset Container (spec 4.1).
It subtracts column means from x and from y, records the means used, and
sets the centered flag; calling it on an already-centered container
fails. -/
def center (ds : TrainingSet) : Except PyErr TrainingSet :=
  if ds.centered then .error (.exception "center called twice")
  else
    .ok { ds with
      x := centerMat ds.x
      y := centerMat ds.y
      xMeans := colMeans ds.x
      yMeans := colMeans ds.y
      centered := true }

/-- Modelled from the spec: normalize() of the Dataset Container (spec
4.1).  It divides each column of x and of y by its standard deviation,
skipping zero-deviation columns, and sets the normalized flag. -/
def normalize (ds : TrainingSet) : TrainingSet :=
  { ds with
    x := normalizeMat ds.x
    y := normalizeMat ds.y
    normalized := true }

/-- Modelled from the spec: autoscale() of the Dataset Container, the
convenience composition calling center then normalize, in that order
(spec 4.1). -/
def autoscale (ds : TrainingSet) : Except PyErr TrainingSet :=
  (center ds).map normalize

/-- Apply the preprocessing selected by the two flags: center when the
first flag is set, then normalize when the second is set.  This is both
the preprocessing a user applies before fitting and the reconstruction
performed by load (src/pls-da/IO.py lines 84-87). -/
def applyFlags (c n : Bool) (ds : TrainingSet) : Except PyErr TrainingSet := do
  let ds1 ← if c then center ds else pure ds
  pure (if n then normalize ds1 else ds1)

/-- Modelled from the spec: the Fitted Model of model.py (absent from the
source slice), spec section 3.  Matrices are stored row-major as the
preallocated numpy result matrices are; lv is the number of latent
variables actually extracted and nr_lv the currently requested number. -/
structure Model where
  T : Mat
  U : Mat
  P : Mat
  Q : Mat
  W : Mat
  b : List ℚ
  E_x : Mat
  E_y : Mat
  x_eigenvalues : List ℚ
  y_eigenvalues : List ℚ
  n : ℕ
  m : ℕ
  p : ℕ
  lv : ℕ
  nr_lv : ℕ
deriving DecidableEq, Repr

/-- Assemble a row-major n-row matrix from a list of column vectors, the
way the engine fills preallocated result matrices column by column
(spec section 9). -/
def mkRows (n : ℕ) (cols : List (List ℚ)) : Mat :=
  (List.range n).map (fun i => cols.map (fun c => c.getD i 0))

/-- Convergence threshold on the squared change of the x-score vector
(spec 4.2 step 3; the exact tolerance is an open question of spec 9 and
is fixed here). -/
def tolSq : ℚ := 1 / 10 ^ 12

/-- Iteration cap of the inner NIPALS loop (spec 4.2 step 3; the exact
cap is an open question of spec 9 and is fixed here). -/
def iterCap : ℕ := 100

/-- Modelled from the spec: one pass of the inner NIPALS loop (spec 4.2
step 2) computing weight w, x-score t, y-loading q and the recomputed
y-score u from the current residual matrices.  Division by a zero norm
yields the zero vector, standing in for the reported numerical
degeneracy. -/
def nipalsStep (X Y : Mat) (u : List ℚ) : List ℚ × List ℚ × List ℚ × List ℚ :=
  let w0 := vecScale (1 / dotQ u u) (matTvec X u)
  let w := vecScale (1 / sqrtQ (dotQ w0 w0)) w0
  let t := matVec X w
  let q0 := vecScale (1 / dotQ t t) (matTvec Y t)
  let q := vecScale (1 / sqrtQ (dotQ q0 q0)) q0
  let u' := vecScale (1 / dotQ q q) (matVec Y q)
  (w, t, q, u')

/-- Modelled from the spec: the inner NIPALS loop (spec 4.2 steps 2-3),
repeated until the x-score changes by less than the tolerance or the
iteration cap runs out, in which case the best available estimate is
retained. -/
def nipalsIter : ℕ → Mat → Mat → List ℚ → Option (List ℚ) →
    List ℚ × List ℚ × List ℚ × List ℚ
  | 0, X, Y, u, _ => nipalsStep X Y u
  | fuel + 1, X, Y, u, tprev =>
    let r := nipalsStep X Y u
    let t := r.2.1
    let converged : Bool :=
      match tprev with
      | some tp => decide (dotQ (vecSub t tp) (vecSub t tp) < tolSq)
      | none => false
    if converged then r
    else nipalsIter fuel X Y r.2.2.2 (some t)

/-- Accumulator of the outer NIPALS loop: current residual matrices and
the columns and scalars extracted so far, in extraction order. -/
structure NipalsAcc where
  X : Mat
  Y : Mat
  tc : List (List ℚ)
  uc : List (List ℚ)
  wc : List (List ℚ)
  pc : List (List ℚ)
  qc : List (List ℚ)
  bs : List ℚ
  xe : List ℚ
  ye : List ℚ
deriving DecidableEq, Repr

/-- Modelled from the spec: the outer NIPALS loop (spec 4.2 steps 1 and
4-7): initialize u from the first column of the residual y-matrix, run
the inner loop, compute the x-loading and inner-relation coefficient,
deflate both matrices, and record every extracted vector and scalar. -/
def nipalsOuter : ℕ → NipalsAcc → NipalsAcc
  | 0, acc => acc
  | k + 1, acc =>
    let u0 := colOf acc.Y 0
    let r := nipalsIter iterCap acc.X acc.Y u0 none
    let w := r.1
    let t := r.2.1
    let q := r.2.2.1
    let u := r.2.2.2
    let pl := vecScale (1 / dotQ t t) (matTvec acc.X t)
    let b := dotQ u t / dotQ t t
    let X' := (acc.X.zip t).map (fun rt => vecSub rt.1 (vecScale rt.2 pl))
    let Y' := (acc.Y.zip t).map (fun rt => vecSub rt.1 (vecScale (b * rt.2) q))
    nipalsOuter k
      { X := X', Y := Y'
        tc := acc.tc ++ [t], uc := acc.uc ++ [u], wc := acc.wc ++ [w]
        pc := acc.pc ++ [pl], qc := acc.qc ++ [q], bs := acc.bs ++ [b]
        xe := acc.xe ++ [dotQ t t], ye := acc.ye ++ [dotQ u u] }

/-- Modelled from the spec: model.nipals (absent from the source slice),
spec 4.2.  It extracts min(n-1, m) latent variables from the
preprocessed matrices and records scores, loadings, weights,
inner-relation coefficients, residual matrices and eigenvalue sequences
into a fresh Fitted Model whose requested nr_lv initially equals the
extracted count. -/
def nipals (X Y : Mat) : Model :=
  let n := X.length
  let m := ncols X
  let p := ncols Y
  let lvmax := min (n - 1) m
  let acc := nipalsOuter lvmax
    { X := X, Y := Y, tc := [], uc := [], wc := [], pc := [], qc := [],
      bs := [], xe := [], ye := [] }
  { T := mkRows n acc.tc
    U := mkRows n acc.uc
    P := mkRows m acc.pc
    Q := mkRows p acc.qc
    W := mkRows m acc.wc
    b := acc.bs
    E_x := acc.X
    E_y := acc.Y
    x_eigenvalues := acc.xe
    y_eigenvalues := acc.ye
    n := n, m := m, p := p
    lv := lvmax
    nr_lv := lvmax }

/-- Modelled from the spec: the nr_lv setter of the Fitted Model.
Setting nr_lv beyond the number of latent variables actually extracted
is an error raising InvalidConfiguration (spec sections 3 and 7). -/
def setNrLv (mo : Model) (v : ℕ) : Except PyErr Model :=
  if mo.lv < v then .error .invalidConfiguration
  else .ok { mo with nr_lv := v }

/-- Metadata written to data.yaml by dump (src/pls-da/IO.py lines
53-57). -/
structure DumpData where
  nr_lv : ℕ
  centered : Bool
  normalized : Bool
  split : ℕ
  sample : ℕ
deriving DecidableEq, Repr

/-- A saved workspace: the dataset.csv table and the data.yaml record.
The text round-trip through save_matrix and CSV.parse is modelled at the
structured level (the percent-s rendering of a Python float reparses to
the same float, so numeric cells round-trip exactly); the reparse of
string cells is applied explicitly by load below. -/
structure Workspace where
  dataset : Table
  data : DumpData
deriving DecidableEq, Repr

/-- Effect of re-parsing a written cell with CSV.parse: a numeric cell
round-trips to itself, a string cell is re-examined by the float
conversion. -/
def reparseCell : Cell → Cell
  | .num q => .num q
  | .str s =>
    match pyFloat? (pyReplace ',' '.' s) with
    | some q => .num q
    | none => .str s

/-- Re-parse a whole written table; the header line is split back into
the same strings. -/
def reparseTable (t : Table) : Table :=
  { header := t.header, body := t.body.map (List.map reparseCell) }

/-- Embedding of dump (src/pls-da/IO.py lines 41-57): it writes the raw
table of the current training set (header row prepended to the body) to
dataset.csv and the current nr_lv plus the preprocessing flags, split
and sample to data.yaml. -/
def dump (mo : Model) (ts : TrainingSet) (split sample : ℕ) : Workspace :=
  { dataset := { header := ts.header, body := ts.body }
    data :=
      { nr_lv := mo.nr_lv
        centered := ts.centered
        normalized := ts.normalized
        split := split
        sample := sample } }

/-- Dataset reconstruction performed by load (src/pls-da/IO.py lines
83-87): re-parse dataset.csv, build a fresh training set, then center
when the saved centered flag is set and normalize when the saved
normalized flag is set, in that order. -/
def loadDataset (c n : Bool) (t : Table) : Except PyErr TrainingSet :=
  applyFlags c n (mkTrainingSet (reparseTable t))

/-- Embedding of load (src/pls-da/IO.py lines 71-92): rebuild the
dataset from the saved table and flags, refit the NIPALS model on it,
assign the saved nr_lv through the validating setter, and return the
model, the dataset and the saved split and sample. -/
def load (w : Workspace) : Except PyErr (Model × TrainingSet × ℕ × ℕ) := do
  let ds ← loadDataset w.data.centered w.data.normalized w.dataset
  let m0 := nipals ds.x ds.y
  let mo ← setNrLv m0 w.data.nr_lv
  pure (mo, ds, w.data.split, w.data.sample)

/-- Identity row of length k with a 1 in position i. -/
def idRow (k i : ℕ) : List ℚ :=
  (List.range k).map (fun j => if j = i then 1 else 0)

/-- One Gauss-Jordan elimination pass on column c of an augmented matrix:
find a pivot row at or below c, swap it up, scale it to a unit pivot and
eliminate the column from every other row.  Returns none when the column
has no pivot (a singular matrix). -/
def gaussElimStep (k c : ℕ) (B : Mat) : Option Mat :=
  match (B.drop c).findIdx? (fun row => decide (row.getD c 0 ≠ 0)) with
  | none => none
  | some off =>
    let r := c + off
    let piv := B.getD r []
    let scaled := vecScale (1 / piv.getD c 0) piv
    some ((List.range k).map (fun i =>
      if i = c then scaled
      else
        let row := if i = r then B.getD c [] else B.getD i []
        vecSub row (vecScale (row.getD c 0) scaled)))

/-- Run Gauss-Jordan elimination over all columns. -/
def gaussElim (k : ℕ) : ℕ → Mat → Option Mat
  | 0, B => some B
  | fuel + 1, B =>
    let c := k - (fuel + 1)
    match gaussElimStep k c B with
    | none => none
    | some B' => gaussElim k fuel B'

/-- Inverse of a square rational matrix by Gauss-Jordan elimination on
the identity-augmented matrix; none models the numpy LinAlgError on a
singular matrix. -/
def gaussInv (A : Mat) : Option Mat :=
  let k := A.length
  let B := (List.range k).map (fun i => (A.getD i []).take k ++ idRow k i)
  (gaussElim k k B).map (fun B' => B'.map (fun r => r.drop k))

/-- Gram matrix MᵀM of the first k columns of a row-major matrix. -/
def gram (M : Mat) (k : ℕ) : Mat :=
  (List.range k).map (fun a => (List.range k).map (fun b => dotQ (colOf M a) (colOf M b)))

/-- Modelled from the spec: the t_square property of the Fitted Model
(spec 4.4): Hotelling T-squared per training sample, computed from the
y-score matrix U restricted to the active nr_lv columns and the inverse
of its Gram matrix; a singular matrix surfaces as a linear-algebra
error. -/
def t_square (mo : Model) : Except PyErr (List ℚ) :=
  let Uk := mo.U.map (fun r => r.take mo.nr_lv)
  match gaussInv (gram Uk mo.nr_lv) with
  | none => .error .linAlgError
  | some Sinv => .ok (Uk.map (fun u => dotQ u (matVec Sinv u)))

/-- Modelled from the spec: the q_residuals_x property of the Fitted
Model (spec 4.4): per-sample sum of squared x-residuals after
reconstructing from the retained components, that is the full residual
E_x plus the contributions of the latent variables beyond nr_lv. -/
def q_residuals_x (mo : Model) : List ℚ :=
  (List.range mo.n).map (fun i =>
    let er := mo.E_x.getD i []
    let tr := (mo.T.getD i []).drop mo.nr_lv
    let row := (List.range mo.m).map (fun j =>
      er.getD j 0 + dotQ tr ((mo.P.getD j []).drop mo.nr_lv))
    (row.map (fun v => v ^ 2)).sum)

/-- Modelled from the spec: the Y_modeled property of the Fitted Model,
the modeled response, summing each retained latent variable's
contribution b_k t_k q_k transposed (spec 4.3). -/
def Y_modeled (mo : Model) : Mat :=
  mo.T.map (fun trow => mo.Q.map (fun qrow =>
    ((List.range mo.nr_lv).map (fun k =>
      mo.b.getD k 0 * trow.getD k 0 * qrow.getD k 0)).sum))

/-- Modelled from the spec: model.explained_variance (absent from the
source slice): the per-latent-variable percentage of variance captured,
an eigenvalue over the eigenvalue total times 100. -/
def explained_variance (mo : Model) (x : Bool) : List ℚ :=
  let e := if x then mo.x_eigenvalues else mo.y_eigenvalues
  e.map (fun v => 100 * v / e.sum)

/-- Running cumulative sums starting from an accumulator. -/
def cumsumFrom (s : ℚ) : List ℚ → List ℚ
  | [] => []
  | a :: t => (s + a) :: cumsumFrom (s + a) t

/-- Cumulative sums of a list, as numpy cumsum. -/
def cumsum (l : List ℚ) : List ℚ := cumsumFrom 0 l

/-- Mean of a list (0 for the empty list, standing in for the numpy
nan). -/
def meanQ (l : List ℚ) : ℚ := l.sum / (l.length : ℚ)

/-- Population standard deviation of a list. -/
def stdQ (l : List ℚ) : ℚ :=
  sqrtQ ((l.map (fun a => (a - meanQ l) ^ 2)).sum / (l.length : ℚ))

/-- Upper bound of the two-sided 95 percent normal interval returned by
the scipy call in t_square_q: the mean plus the 0.975 normal quantile
times the standard deviation (the quantile is a fixed rational
approximation of the floating constant). -/
def normUpper95 (l : List ℚ) : ℚ :=
  meanQ l + (1959963984540054 / 10 ^ 15) * stdQ l

/-- Modelled from the spec: model.integer_bounds (absent from the source
slice), the axes bounds used by the scores plot: integer bounds widened
by one around the extreme values of the chosen column of the two given
matrices. -/
def integer_bounds (P T : Mat) (j : ℤ) : ℚ × ℚ :=
  let pick (M : Mat) : List ℚ :=
    let c := ncols M
    let jj := if j < 0 then j + c else j
    if 0 ≤ jj ∧ jj < (c : ℤ) then colOf M jj.toNat else []
  let vals := pick P ++ pick T
  let lo := vals.foldl min 0
  let hi := vals.foldl max 0
  (((Int.floor lo - 1 : ℤ) : ℚ), ((Int.ceil hi + 1 : ℤ) : ℚ))

/-- Color and marker record returned by plot.symbol. -/
structure SymbolRec where
  hex : String
  marker : String
deriving DecidableEq, Repr

/-- The record table of plot.symbol (src/pls-da/plot.py lines 27-38). -/
def symbolRecords : List SymbolRec :=
  [⟨"#1F77B4", "o"⟩, ⟨"#2CA02C", "x"⟩, ⟨"#D62728", "^"⟩, ⟨"#FF7F0E", "D"⟩,
   ⟨"#A00000", "s"⟩, ⟨"#FFD700", "*"⟩, ⟨"#000000", "+"⟩, ⟨"#000000", "h"⟩,
   ⟨"#000000", "p"⟩]

/-- Embedding of plot.symbol (src/pls-da/plot.py lines 21-42): a known
category picks its rank among the sorted categories modulo the table
size, any unknown category (including the Python None) picks the first
record. -/
def symbol (ts : TrainingSet) (category : Option String) : SymbolRec :=
  let index :=
    match category with
    | some c =>
      if c ∈ ts.categories then
        (List.indexOf c (sortStr ts.categories)) % symbolRecords.length
      else 0
    | none => 0
  symbolRecords.getD index ⟨"#1F77B4", "o"⟩

/-- One drawing command recorded on an axes object.  The matplotlib axes
is modelled as the list of commands issued on it. -/
inductive AxCmd where
  | scatter (xs ys : List ℚ) (hex marker : String) (label : Option String)
  | plotLine (xs ys : List ℚ) (hex marker : String)
  | setTitle (s : String)
  | setXlabel (s : String)
  | setYlabel (s : String)
  | setXlim (lo hi : ℚ)
  | setYlim (lo hi : ℚ)
  | axvline (v : ℚ)
  | axhline (v : ℚ)
  | annotate (s : String) (px py : ℚ)
  | legend (labels : List String)
deriving DecidableEq, Repr

/-- The state of a matplotlib axes: the commands issued so far. -/
abbrev Ax := List AxCmd

/-- The module-level globals a plot call reads: the current model and
training set (assumed initialized, as the surrounding code guarantees
before plotting). -/
structure PlotEnv where
  model : Model
  trainSet : TrainingSet
deriving DecidableEq, Repr

/-- Embedding of plot.scatter_wrapper (src/pls-da/plot.py lines 85-94):
one scatter command colored and marked by the category symbol and
labeled with the category. -/
def scatter_wrapper (ts : TrainingSet) (ax : Ax) (xs ys : List ℚ)
    (cat : Option String) : Ax :=
  ax ++ [.scatter xs ys (symbol ts cat).hex (symbol ts cat).marker cat]

/-- Embedding of plot.line_wrapper (src/pls-da/plot.py lines 97-106):
one line command colored and marked by the category symbol. -/
def line_wrapper (ts : TrainingSet) (ax : Ax) (xs ys : List ℚ)
    (cat : Option String) : Ax :=
  ax ++ [.plotLine xs ys (symbol ts cat).hex (symbol ts cat).marker]

/-- Python list indexing with a loop counter: in range gives the value,
out of range raises IndexError. -/
def npIdx {α : Type} (l : List α) (i : ℕ) : Except PyErr α :=
  match l.get? i with
  | some v => .ok v
  | none => .error .indexError

/-- Numpy column indexing with a possibly negative index: a negative
index counts from the end; out of range raises IndexError. -/
def npCol (M : Mat) (i : ℤ) : Except PyErr (List ℚ) :=
  let c := ncols M
  let j := if i < 0 then i + c else i
  if 0 ≤ j ∧ j < (c : ℤ) then .ok (colOf M j.toNat) else .error .indexError

/-- Numpy two-dimensional element indexing, row by loop counter and
column by possibly negative index. -/
def npIdx2 (M : Mat) (i : ℕ) (j : ℤ) : Except PyErr ℚ := do
  let row ← npIdx M i
  let c := row.length
  let jj := if j < 0 then j + c else j
  if 0 ≤ jj ∧ jj < (c : ℤ) then pure (row.getD jj.toNat 0) else .error .indexError

/-- Python max over a sequence: raises ValueError on an empty one. -/
def npMax (l : List ℚ) : Except PyErr ℚ :=
  match l with
  | [] => .error (.valueError "max() arg is an empty sequence")
  | h :: t => .ok (t.foldl max h)

/-- Pair an axes computation with the unchanged globals, for plot
functions that mutate no module state. -/
def withEnv (env : PlotEnv) (r : Except PyErr Ax) : Except PyErr (PlotEnv × Ax) :=
  r.map (fun ax => (env, ax))

/-- The list 0, 1, ..., k-1 as rationals, for range arguments of plot
calls. -/
def rangeQ (k : ℕ) : List ℚ := (List.range k).map (fun i => (i : ℚ))

/-- Axis label for a latent-variable index, as the format calls do. -/
def lvLabel (i : ℤ) : String := "LV" ++ toString (i + 1)

/-- Labels of the labeled artists on an axes, in drawing order, as
get_legend_handles_labels returns them (unlabeled line commands are
excluded, as matplotlib excludes artists without an explicit label). -/
def axLabels (ax : Ax) : List String :=
  ax.filterMap (fun cmd =>
    match cmd with
    | .scatter _ _ _ _ (some l) => some l
    | _ => none)

/-- Embedding of plot.scree (src/pls-da/plot.py lines 109-124). -/
def scree (env : PlotEnv) (ax : Ax) (x y : Bool) : Except PyErr (PlotEnv × Ax) :=
  if x = y then .error (.valueError "In plot.scree() x, y matrix flags must differ")
  else withEnv env (do
    let eigen := if x then env.model.x_eigenvalues else env.model.y_eigenvalues
    let ax := line_wrapper env.trainSet ax (rangeQ eigen.length) eigen none
    let ax := ax ++ [.setTitle (if x then "Scree plot for x" else "Scree plot for y"),
      .setXlabel "Principal component number", .setYlabel "Eigenvalues",
      .setXlim (-(1 : ℚ) / 2) (eigen.length : ℚ)]
    let e0 ← npIdx eigen 0
    pure (ax ++ [.setYlim (-(1 : ℚ) / 2) (((Int.ceil e0 : ℤ) : ℚ) + 1 / 2)]))

/-- Embedding of plot.cumulative_explained_variance (src/pls-da/plot.py
lines 127-144). -/
def cumulative_explained_variance (env : PlotEnv) (ax : Ax) (x y : Bool) :
    Except PyErr (PlotEnv × Ax) :=
  if x = y then
    .error (.valueError "In plot.explained_variance() x, y matrix flags does not differ")
  else withEnv env (do
    let ev := explained_variance env.model x
    let ax := line_wrapper env.trainSet ax (rangeQ ev.length) (cumsum ev) none
    let ax := ax ++
      [.setTitle (if x then "Explained variance plot for x" else "Explained variance plot for y"),
       .setXlabel "Principal component number",
       .setYlabel "Cumulative variance captured (%)",
       .setXlim (-(1 : ℚ) / 2) (ev.length : ℚ)]
    let v0 ← npIdx ev 0
    pure (ax ++ [.setYlim (max (-2) (v0 - 2)) 102]))

/-- Embedding of plot.inner_relations (src/pls-da/plot.py lines
147-162). -/
def inner_relations (env : PlotEnv) (ax : Ax) (num : ℤ) :
    Except PyErr (PlotEnv × Ax) :=
  if (env.model.nr_lv : ℤ) < num then
    .error (.valueError "In plot.inner_relations() num of latent variables is out of bounds")
  else withEnv env (do
    let ax ← (List.range env.model.T.length).foldlM (fun ax i => do
      let tv ← npIdx2 env.model.T i num
      let uv ← npIdx2 env.model.U i num
      let cy ← npIdx env.trainSet.categorical_y i
      pure (scatter_wrapper env.trainSet ax [tv] [uv] (some cy))) ax
    pure (ax ++ [.setTitle ("Inner relation for LV " ++ toString num),
      .setXlabel ("t" ++ toString num), .setYlabel ("u" ++ toString num)]))

/-- Embedding of plot.scores (src/pls-da/plot.py lines 186-227). -/
def scores (env : PlotEnv) (ax : Ax) (pc_a pc_b : ℤ) (x y normalize : Bool) :
    Except PyErr (PlotEnv × Ax) :=
  if x = y then .error (.valueError "In plot.scores() x, y matrix flags must differ")
  else if pc_a = pc_b then .error (.valueError "Principal components must be different!")
  else withEnv env (do
    let a := min pc_a pc_b
    let b := max pc_a pc_b
    let M := if x then env.model.T else env.model.U
    let sa0 ← npCol M a
    let sb0 ← npCol M b
    let sab ←
      if normalize then do
        let ma ← npMax (sa0.map abs)
        let mb ← npMax (sb0.map abs)
        pure (sa0.map (fun v => v / ma), sb0.map (fun v => v / mb))
      else pure (sa0, sb0)
    let ax ← (List.range M.length).foldlM (fun ax i => do
      let av ← npIdx sab.1 i
      let bv ← npIdx sab.2 i
      let cy ← npIdx env.trainSet.categorical_y i
      pure (scatter_wrapper env.trainSet ax [av] [bv] (some cy))) ax
    let ax := ax ++ [.setTitle (if x then "Scores plot for x" else "Scores plot for y"),
      .setXlabel (lvLabel a), .setYlabel (lvLabel b), .axvline 0, .axhline 0]
    let ax :=
      if normalize then
        ax ++ [.setXlim (-(11 : ℚ) / 10) ((11 : ℚ) / 10),
               .setYlim (-(11 : ℚ) / 10) ((11 : ℚ) / 10)]
      else
        let ba := integer_bounds env.model.P env.model.T a
        let bb := integer_bounds env.model.P env.model.T b
        ax ++ [.setXlim ba.1 ba.2, .setYlim bb.1 bb.2]
    pure (ax ++ [.legend (dedupFirst (axLabels ax))]))

/-- Embedding of plot.loadings (src/pls-da/plot.py lines 230-261). -/
def loadings (env : PlotEnv) (ax : Ax) (pc_a pc_b : ℤ) (x y : Bool) :
    Except PyErr (PlotEnv × Ax) :=
  if x = y then .error (.valueError "In plot.loadings() x, y matrix flags must differ")
  else if pc_a = pc_b then .error (.valueError "Principal components must be different!")
  else withEnv env (do
    let a := min pc_a pc_b
    let b := max pc_a pc_b
    let M := if x then env.model.P else env.model.Q
    let ca ← npCol M a
    let cb ← npCol M b
    let ax := scatter_wrapper env.trainSet ax ca cb none
    let ax ← (List.range M.length).foldlM (fun ax i => do
      let nm ← npIdx env.trainSet.header (i + 1)
      let xa ← npIdx2 M i a
      let xb ← npIdx2 M i b
      pure (ax ++ [.annotate nm xa xb])) ax
    pure (ax ++ [.setTitle (if x then "Loadings plot for x" else "Loadings plot for y"),
      .setXlabel (lvLabel a), .setYlabel (lvLabel b), .axvline 0, .axhline 0]))

/-- Embedding of plot.biplot (src/pls-da/plot.py lines 165-183): its own
two checks, then scores and loadings on the same axes, then its
titles. -/
def biplot (env : PlotEnv) (ax : Ax) (pc_a pc_b : ℤ) (x y normalize : Bool) :
    Except PyErr (PlotEnv × Ax) :=
  if x = y then .error (.valueError "In plot.biplot() x, y matrix flags must differ")
  else if pc_a = pc_b then .error (.valueError "Principal components must be different!")
  else do
    let r1 ← scores env ax pc_a pc_b x y normalize
    let r2 ← loadings r1.1 r1.2 pc_a pc_b x y
    withEnv r2.1 (pure (r2.2 ++
      [.setTitle (if x then "Biplot for x" else "Biplot for y"),
       .setXlabel (lvLabel pc_a), .setYlabel (lvLabel pc_b)]))

/-- Embedding of plot.calculated_y (src/pls-da/plot.py lines 264-272). -/
def calculated_y (env : PlotEnv) (ax : Ax) : Except PyErr (PlotEnv × Ax) :=
  withEnv env (do
    let ax := ax ++ [.setTitle "Y calculated", .setXlabel "sample", .setYlabel "modeled Y"]
    (List.range env.model.p).foldlM (fun ax j =>
      (List.range env.model.n).foldlM (fun ax i => do
        let v ← npIdx2 (Y_modeled env.model) i (j : ℤ)
        let cy ← npIdx env.trainSet.categorical_y i
        pure (scatter_wrapper env.trainSet ax [(i : ℚ)] [v] (some cy))) ax) ax)

/-- Embedding of plot.predicted_y (src/pls-da/plot.py lines 275-276). -/
def predicted_y (_env : PlotEnv) (_ax : Ax) : Except PyErr (PlotEnv × Ax) :=
  .error .notImplementedError

/-- Embedding of plot.t_square_q (src/pls-da/plot.py lines 279-301): it
assigns nr_lv = 3 on the current model through the validating setter,
then plots the Q residuals over the Hotelling T-squared statistic with
95 percent confidence lines and a legend. -/
def t_square_q (env : PlotEnv) (ax : Ax) : Except PyErr (PlotEnv × Ax) := do
  let mo ← setNrLv env.model 3
  let env' := { env with model := mo }
  withEnv env' (do
    let ax := ax ++ [.setTitle "T^2 - Q", .setXlabel "Hotellings T^2",
      .setYlabel "Q residuals"]
    let t2 ← t_square mo
    let qr := q_residuals_x mo
    let ax ← (List.range mo.n).foldlM (fun ax i => do
      let a ← npIdx t2 i
      let b ← npIdx qr i
      let cy ← npIdx env'.trainSet.categorical_y i
      pure (scatter_wrapper env'.trainSet ax [a] [b] (some cy))) ax
    let ax := ax ++ [.axvline (normUpper95 t2), .axhline (normUpper95 qr)]
    pure (ax ++ [.legend (dedupFirst (axLabels ax))]))

/-- Embedding of plot.y_residuals_leverage (src/pls-da/plot.py lines
304-317). -/
def y_residuals_leverage (env : PlotEnv) (ax : Ax) : Except PyErr (PlotEnv × Ax) :=
  withEnv env (do
    let temp ←
      match gaussInv (gram env.model.U (ncols env.model.U)) with
      | none => Except.error PyErr.linAlgError
      | some t => pure t
    let ax ← (List.range env.model.p).foldlM (fun ax j =>
      (List.range env.model.n).foldlM (fun ax i => do
        let ui ← npIdx env.model.U i
        let ev ← npIdx2 env.model.E_y i (j : ℤ)
        let cy ← npIdx env.trainSet.categorical_y i
        pure (scatter_wrapper env.trainSet ax [dotQ ui (matVec temp ui)] [ev] (some cy))) ax) ax
    pure (ax ++ [.setTitle "Leverage", .setXlabel "leverage", .setYlabel "Y residuals"]))

/-- Embedding of plot.leverage (src/pls-da/plot.py lines 320-332). -/
def leverage (env : PlotEnv) (ax : Ax) : Except PyErr (PlotEnv × Ax) :=
  withEnv env (do
    let temp ←
      match gaussInv (gram env.model.U (ncols env.model.U)) with
      | none => Except.error PyErr.linAlgError
      | some t => pure t
    let ax ← (List.range env.model.n).foldlM (fun ax i => do
      let ui ← npIdx env.model.U i
      let cy ← npIdx env.trainSet.categorical_y i
      pure (scatter_wrapper env.trainSet ax [(i : ℚ)] [dotQ ui (matVec temp ui)] (some cy))) ax
    pure (ax ++ [.setTitle "Leverage", .setXlabel "sample", .setYlabel "leverage"]))

/-- Embedding of plot.regression_coefficients (src/pls-da/plot.py lines
335-342). -/
def regression_coefficients (env : PlotEnv) (ax : Ax) : Except PyErr (PlotEnv × Ax) :=
  withEnv env (do
    let ax ← (List.range env.model.b.length).foldlM (fun ax i => do
      let cy ← npIdx env.trainSet.categorical_y i
      pure (scatter_wrapper env.trainSet ax [(i : ℚ)] [env.model.b.getD i 0] (some cy))) ax
    pure (ax ++ [.setTitle "Inner relation (variable b)", .setXlabel "LV number",
      .setYlabel "inner relation variable"]))

/-- Embedding of plot.weights (src/pls-da/plot.py lines 345-372). -/
def weights (env : PlotEnv) (ax : Ax) (lv_a lv_b : ℤ) : Except PyErr (PlotEnv × Ax) :=
  if lv_a = lv_b then .error (.valueError "Principal components must be different!")
  else withEnv env (do
    let a := min lv_a lv_b
    let b := max lv_a lv_b
    let wa ← npCol env.model.W a
    let wb ← npCol env.model.W b
    let ax := scatter_wrapper env.trainSet ax wa wb none
    let ax ← (List.range env.model.W.length).foldlM (fun ax i => do
      let nm ← npIdx env.trainSet.header (i + 1)
      let xa ← npIdx2 env.model.W i a
      let xb ← npIdx2 env.model.W i b
      pure (ax ++ [.annotate nm xa xb])) ax
    pure (ax ++ [.setTitle "Weights plot", .setXlabel (lvLabel a),
      .setYlabel (lvLabel b), .axvline 0, .axhline 0]))

/-- Embedding of plot.weights_line (src/pls-da/plot.py lines 375-383). -/
def weights_line (env : PlotEnv) (ax : Ax) (lv : ℤ) : Except PyErr (PlotEnv × Ax) :=
  withEnv env (do
    let wl ← npCol env.model.W lv
    let ax := line_wrapper env.trainSet ax (rangeQ env.model.W.length) wl none
    pure (ax ++ [.setTitle "Weights line plot", .setXlabel "Sample",
      .setYlabel (lvLabel lv), .axvline 0, .axhline 0]))

/-- Embedding of plot.data (src/pls-da/plot.py lines 386-394). -/
def data (env : PlotEnv) (ax : Ax) : Except PyErr (PlotEnv × Ax) :=
  withEnv env (do
    let ax ← (List.range env.model.n).foldlM (fun ax i => do
      let xi ← npIdx env.trainSet.x i
      let cy ← npIdx env.trainSet.categorical_y i
      pure (line_wrapper env.trainSet ax (rangeQ env.model.m) xi (some cy))) ax
    pure (ax ++ [.setTitle "Data by category", .setXlabel "sample", .setYlabel "Value"]))

/-- Surrogate for the external sklearn PLS regression used only by
plot.sklearn_inner_relations: the library is not part of this
repository, and only the determinism of its score matrices matters to
any property here, so its fit is modelled as a fixed deterministic
function of the inputs. -/
def sklearnPLSScores (x y : Mat) : Mat × Mat := (x, y)

/-- Embedding of plot.sklearn_inner_relations (src/pls-da/plot.py lines
397-421), with the external library fit replaced by the surrogate
above. -/
def sklearn_inner_relations (env : PlotEnv) (ax : Ax) (num : ℤ) :
    Except PyErr (PlotEnv × Ax) :=
  if (env.model.nr_lv : ℤ) < num then
    .error (.valueError "In sklearn_inner_relations() num of latent variables is out of bounds")
  else withEnv env (do
    let sc := sklearnPLSScores env.trainSet.x env.trainSet.y
    let ax ← (List.range env.model.T.length).foldlM (fun ax i => do
      let tv ← npIdx2 sc.1 i num
      let uv ← npIdx2 sc.2 i num
      let cy ← npIdx env.trainSet.categorical_y i
      pure (scatter_wrapper env.trainSet ax [tv] [uv] (some cy))) ax
    pure (ax ++ [.setTitle ("Inner relation for LV " ++ toString num ++ " (sklearn)"),
      .setXlabel ("t" ++ toString num), .setYlabel ("u" ++ toString num)]))

/-- Modelled from the spec: the test-role Dataset Container of model.py
(absent from the source slice), spec sections 3 and 4.1: a container
transformed with the paired training container's learned parameters. -/
structure TestSet where
  x : Mat
  y : Mat
  categorical_y : List String
  categories : List String
deriving DecidableEq, Repr

/-- Modelled from the spec: the Statistics Result of model.py (absent
from the source slice), spec section 3: produced fresh per evaluation
with a residual sum of squares. -/
structure Statistics where
  rss : ℚ
deriving DecidableEq, Repr

/-- A Python value passed to one of the update_global functions: an
instance of one of the four expected model classes, or anything else
(None, a number, a string, an instance of an unrelated class), described
by its type name as the Python format call renders it. -/
inductive PyVal where
  | model (mo : Model)
  | trainingSet (ts : TrainingSet)
  | testSet (ts : TestSet)
  | statistics (st : Statistics)
  | other (typeName : String)
deriving DecidableEq, Repr

/-- The module-level global state of plot.py (lines 15-18): the current
model, training set, test set and statistics, plus the emitted error
log. -/
structure GlobalState where
  MODEL : Option Model
  TRAIN_SET : Option TrainingSet
  TEST_SET : Option TestSet
  STATS : Option Statistics
  log : List String
deriving DecidableEq, Repr

/-- Embedding of plot.update_global_model (src/pls-da/plot.py lines
45-52): assign MODEL only when the value is a model.Model instance,
otherwise log an error and leave every global unchanged. -/
def update_global_model (st : GlobalState) (v : PyVal) : GlobalState :=
  match v with
  | .model mo => { st with MODEL := some mo }
  | _ => { st with log := st.log ++ ["Wrong type in update_global_model()."] }

/-- Embedding of plot.update_global_train_set (src/pls-da/plot.py lines
55-62): assign TRAIN_SET only when the value is a model.TrainingSet
instance, otherwise log an error and leave every global unchanged. -/
def update_global_train_set (st : GlobalState) (v : PyVal) : GlobalState :=
  match v with
  | .trainingSet ts => { st with TRAIN_SET := some ts }
  | _ => { st with log := st.log ++ ["Wrong type in update_global_model()."] }

/-- Embedding of plot.update_global_test_set (src/pls-da/plot.py lines
65-72): assign TEST_SET only when the value is a model.TestSet instance,
otherwise log an error and leave every global unchanged. -/
def update_global_test_set (st : GlobalState) (v : PyVal) : GlobalState :=
  match v with
  | .testSet ts => { st with TEST_SET := some ts }
  | _ => { st with log := st.log ++ ["Wrong type in update_global_model()."] }

/-- Embedding of plot.update_global_statistics (src/pls-da/plot.py lines
75-82): assign STATS only when the value is a model.Statistics instance,
otherwise log an error and leave every global unchanged. -/
def update_global_statistics (st : GlobalState) (v : PyVal) : GlobalState :=
  match v with
  | .statistics s => { st with STATS := some s }
  | _ => { st with log := st.log ++ ["Wrong type in update_global_model()."] }

/-- A value passed to IO.mat2str: a two-dimensional or one-dimensional
numpy array of floats, a zero-dimensional numpy scalar, a Python list or
tuple of mixed cells, or any other object carrying its Python string
rendering. -/
inductive MatData where
  | nd2 (rows : List (List ℚ))
  | nd1 (v : List ℚ)
  | nd0 (q : ℚ)
  | pylist (l : List Cell)
  | pytuple (l : List Cell)
  | other (rendered : String)
deriving DecidableEq, Repr

/-- A run of k copies of a character, for the horizontal bars of the
ascii table. -/
def repChar (c : Char) (k : ℕ) : String := String.mk (List.replicate k c)

/-- Number of decimal digits of the integer part of a nonnegative
rational below 10 to the fuel. -/
def expUp : ℕ → ℚ → ℕ
  | 0, _ => 0
  | fuel + 1, a => if a < 10 then 0 else expUp fuel (a / 10) + 1

/-- Number of decimal upscalings needed to bring a positive rational
below 1 up to at least 1, bounded by the fuel. -/
def expDown : ℕ → ℚ → ℕ
  | 0, _ => 0
  | fuel + 1, a => if 1 ≤ a then 0 else expDown fuel (a * 10) + 1

/-- Zero-padded decimal rendering of a natural number to a given
width. -/
def padNat (width n : ℕ) : String :=
  let s := toString n
  repChar '0' (width - s.length) ++ s

/-- Scientific rendering of a rational with three decimals, the value
the Python format spec e produces for the corresponding float (digit
rounding follows round half away from zero, a surrogate for the
floating round-to-even). -/
def sci3 (q : ℚ) : String :=
  if q = 0 then " 0.000e+00"
  else
    let sgn := if q < 0 then "-" else " "
    let a := |q|
    let e : ℤ := if 1 ≤ a then (expUp 500 a : ℤ) else -(expDown 500 a : ℤ)
    let mant := if 0 ≤ e then a / 10 ^ e.toNat else a * 10 ^ (-e).toNat
    let r := round (mant * 1000)
    let r2 : ℤ × ℤ := if r = 10000 then (e + 1, 1000) else (e, r)
    let digits := r2.2.toNat
    sgn ++ toString (digits / 1000) ++ "." ++ padNat 3 (digits % 1000) ++ "e" ++
      (if r2.1 < 0 then "-" else "+") ++ padNat 2 r2.1.natAbs

/-- Left-aligned padding to width 10 followed by the trailing space of
the format literal in mat2str. -/
def fmtCell10 (s : String) : String := s ++ repChar ' ' (10 - s.length) ++ " "

/-- Formatting of one list or tuple cell by the format spec e: floats
render in scientific form, a string cell raises ValueError as the
Python format call does on a non-numeric value. -/
def formatCell : Cell → Except PyErr String
  | .num q => .ok (fmtCell10 (sci3 q))
  | .str _ => .error (.valueError "Unknown format code e for object of type str")

/-- Python str rendering surrogate for a mat2str argument, used by the
fallback branch. -/
def pyStrData : MatData → String
  | .nd2 rows => "array2 " ++ toString (repr rows)
  | .nd1 v => "array1 " ++ toString (repr v)
  | .nd0 q => toString (repr q)
  | .pylist l => "list " ++ toString (repr l)
  | .pytuple l => "tuple " ++ toString (repr l)
  | .other r => r

/-- Message string of an exception, as the logger renders it. -/
def warnStr : PyErr → String
  | .valueError m => m
  | .indexError => "index out of range"
  | .invalidConfiguration => "InvalidConfiguration"
  | .linAlgError => "Singular matrix"
  | .notImplementedError => "NotImplementedError"
  | .exception m => m

/-- The try body of IO.mat2str (src/pls-da/IO.py lines 97-116): a
two-dimensional array renders as a framed ascii table (raising
IndexError on an array with no rows at the data subscript), a
one-dimensional array, list or tuple renders as a one-row table (raising
ValueError on a cell the format spec rejects), and every other value
raises the unsupported-type Exception. -/
def mat2strTry (d : MatData) : Except PyErr String :=
  match d with
  | .nd2 rows => do
    let r0 ← npIdx rows 0
    let bar := "+" ++ repChar '-' (1 + 11 * r0.length) ++ "+"
    let body ← pure (rows.map (fun row =>
      "| " ++ String.join (row.map (fun c => fmtCell10 (sci3 c))) ++ "|" ++ "\n"))
    pure (bar ++ "\n" ++ String.join body ++ bar)
  | .nd1 v =>
    let bar := "+" ++ repChar '-' (1 + 11 * v.length) ++ "+"
    pure (bar ++ "\n" ++ "| " ++ String.join (v.map (fun c => fmtCell10 (sci3 c))) ++
      "|" ++ "\n" ++ bar)
  | .pylist l => do
    let bar := "+" ++ repChar '-' (1 + 11 * l.length) ++ "+"
    let cells ← l.mapM formatCell
    pure (bar ++ "\n" ++ "| " ++ String.join cells ++ "|" ++ "\n" ++ bar)
  | .pytuple l => do
    let bar := "+" ++ repChar '-' (1 + 11 * l.length) ++ "+"
    let cells ← l.mapM formatCell
    pure (bar ++ "\n" ++ "| " ++ String.join cells ++ "|" ++ "\n" ++ bar)
  | .nd0 _ => .error (.exception "Not supported data type in mat2str()")
  | .other _ => .error (.exception "Not supported data type in mat2str()")

/-- Embedding of IO.mat2str (src/pls-da/IO.py lines 95-121).  The except
clause catches any exception of the try body, logs it as a warning and
rebinds the result to the str rendering of the argument; the return
statement in the finally block then returns that result, so the
function, seen from its callers, always returns a string (paired here
with the warnings logged on the way). -/
def mat2str (d : MatData) : Except PyErr (String × List String) :=
  match mat2strTry d with
  | .ok s => .ok (s, [])
  | .error e => .ok (pyStrData d, [warnStr e])

/-!  Helper lemmas shared by the claim theorems. -/

theorem convCell_str_unparsable (c0 s : String) (h : convCell c0 = .str s) :
    pyFloat? (pyReplace ',' '.' s) = none := by
  unfold convCell at h
  cases hp : pyFloat? (pyReplace ',' '.' c0) with
  | some q => rw [hp] at h; exact absurd h (by simp)
  | none =>
    rw [hp] at h
    cases h
    exact hp

theorem firstBadRow_none (hlen : ℕ) (rows : List (List String))
    (h : firstBadRow hlen rows = none) : ∀ r ∈ rows, r.length = hlen := by
  induction rows with
  | nil => intro r hr; cases hr
  | cons a t ih =>
    intro r hr
    unfold firstBadRow at h
    by_cases ha : a.length ≠ hlen
    · simp [ha] at h
    · simp only [ha, if_neg, ite_false] at h
      cases hr with
      | head => exact not_ne_iff.mp ha
      | tail _ hm =>
        cases hfb : firstBadRow hlen t with
        | some i => rw [hfb] at h; simp at h
        | none => exact ih hfb r hm

theorem firstBadRow_some_of_bad (hlen : ℕ) (rows : List (List String))
    (h : ∃ r ∈ rows, r.length ≠ hlen) : firstBadRow hlen rows ≠ none := by
  intro hn
  obtain ⟨r, hr, hne⟩ := h
  exact hne (firstBadRow_none hlen rows hn r hr)

/-- The claim CSV.parse postcondition: an unreadable file, an empty body
and a column-count mismatch all raise; a success returns at least one
header cell and one body row, every body row as long as the header, the
rows being exactly the split lines with float-like cells converted to
their floats and every remaining string cell not float-parsable. -/
theorem csv_parse_postcondition :
    isOkE (CSVparse none) = false
    ∧ (∀ lines h b, CSVparse (some lines) = .ok (h, b) →
        1 ≤ h.length ∧ 1 ≤ b.length ∧
        (∀ row ∈ b, row.length = h.length) ∧
        h = splitChar ';' (stripNl (lines.headD "")) ∧
        b = lines.tail.map (fun l => (splitChar ';' (stripNl l)).map convCell) ∧
        (∀ row ∈ b, ∀ c ∈ row, ∀ s, c = Cell.str s →
          pyFloat? (pyReplace ',' '.' s) = none))
    ∧ (∀ lines, lines.tail = [] → isOkE (CSVparse (some lines)) = false)
    ∧ (∀ lines, (∃ l ∈ lines.tail,
          (splitChar ';' (stripNl l)).length ≠
            (splitChar ';' (stripNl (lines.headD ""))).length) →
        isOkE (CSVparse (some lines)) = false) := by
  refine ⟨rfl, ?_, ?_, ?_⟩
  · intro lines h b hok
    have hok' : CSVparseLines ';' lines = .ok (h, b) := hok
    unfold CSVparseLines at hok'
    set header := splitChar ';' (stripNl (lines.headD "")) with hh
    set rawBody := lines.tail.map (fun l => splitChar ';' (stripNl l)) with hrb
    by_cases hc : header.length < 1 ∨ rawBody.length < 1
    · rw [if_pos hc] at hok'
      exact absurd hok' (by simp)
    · rw [if_neg hc] at hok'
      cases hfb : firstBadRow header.length rawBody with
      | some i => rw [hfb] at hok'; exact absurd hok' (by simp)
      | none =>
        rw [hfb] at hok'
        rw [Except.ok.injEq, Prod.mk.injEq] at hok'
        obtain ⟨hh1, hb1⟩ := hok'
        push_neg at hc
        have hlen := firstBadRow_none header.length rawBody hfb
        refine ⟨?_, ?_, ?_, hh1.symm, ?_, ?_⟩
        · rw [← hh1]; exact hc.1
        · rw [← hb1]
          simp only [List.length_map]
          exact hc.2
        · intro row hrow
          rw [← hb1] at hrow
          obtain ⟨raw, hraw, hmap⟩ := List.mem_map.mp hrow
          rw [← hmap, List.length_map, ← hh1]
          exact hlen raw hraw
        · rw [← hb1]
          rw [List.map_map]
          rfl
        · intro row hrow c hcell s hs
          rw [← hb1] at hrow
          obtain ⟨raw, _, hmap⟩ := List.mem_map.mp hrow
          rw [← hmap] at hcell
          obtain ⟨c0, _, hconv⟩ := List.mem_map.mp hcell
          exact convCell_str_unparsable c0 s (hs ▸ hconv)
  · intro lines htail
    show isOkE (CSVparseLines ';' lines) = false
    unfold CSVparseLines
    rw [htail]
    simp [isOkE]
  · intro lines hbad
    show isOkE (CSVparseLines ';' lines) = false
    unfold CSVparseLines
    set header := splitChar ';' (stripNl (lines.headD "")) with hh
    set rawBody := lines.tail.map (fun l => splitChar ';' (stripNl l)) with hrb
    by_cases hc : header.length < 1 ∨ rawBody.length < 1
    · rw [if_pos hc]
      rfl
    · rw [if_neg hc]
      have hbadr : ∃ r ∈ rawBody, r.length ≠ header.length := by
        obtain ⟨l, hl, hne⟩ := hbad
        exact ⟨splitChar ';' (stripNl l), List.mem_map.mpr ⟨l, hl, rfl⟩, hne⟩
      cases hfb : firstBadRow header.length rawBody with
      | some i => rfl
      | none => exact absurd hfb (firstBadRow_some_of_bad _ _ hbadr)

/-- Witness instantiating the CSV postcondition theorem on a concrete
three-line file with a comma-decimal cell and a non-numeric cell. -/
theorem csv_parse_postcondition_witness :
    1 ≤ (["name", "x1", "x2"] : List String).length ∧
    1 ≤ ([[Cell.str "A", Cell.num 1, Cell.num (5/2)],
          [Cell.str "B", Cell.num (7/2), Cell.str "abc"]] : List (List Cell)).length ∧
    (∀ row ∈ ([[Cell.str "A", Cell.num 1, Cell.num (5/2)],
          [Cell.str "B", Cell.num (7/2), Cell.str "abc"]] : List (List Cell)),
        row.length = (["name", "x1", "x2"] : List String).length) ∧
    (["name", "x1", "x2"] : List String) =
      splitChar ';' (stripNl ((["name;x1;x2", "A;1;2,5", "B;3.5;abc"] : List String).headD "")) ∧
    ([[Cell.str "A", Cell.num 1, Cell.num (5/2)],
          [Cell.str "B", Cell.num (7/2), Cell.str "abc"]] : List (List Cell)) =
      (["name;x1;x2", "A;1;2,5", "B;3.5;abc"] : List String).tail.map
        (fun l => (splitChar ';' (stripNl l)).map convCell) ∧
    (∀ row ∈ ([[Cell.str "A", Cell.num 1, Cell.num (5/2)],
          [Cell.str "B", Cell.num (7/2), Cell.str "abc"]] : List (List Cell)),
        ∀ c ∈ row, ∀ s, c = Cell.str s → pyFloat? (pyReplace ',' '.' s) = none) :=
  csv_parse_postcondition.2.1 ["name;x1;x2", "A;1;2,5", "B;3.5;abc"]
    ["name", "x1", "x2"]
    [[Cell.str "A", Cell.num 1, Cell.num (5/2)], [Cell.str "B", Cell.num (7/2), Cell.str "abc"]]
    (by decide)

/-- The claim on preprocessing composition order: the dataset
reconstruction of load with both saved flags set applies center first
and normalize second, which is exactly the composition autoscale
performs (center then normalize), so normalize operates on the
already-centered data. -/
theorem load_preprocess_order (t : Table) :
    loadDataset true true t = autoscale (mkTrainingSet (reparseTable t))
    ∧ autoscale (mkTrainingSet (reparseTable t)) =
        Except.map normalize (center (mkTrainingSet (reparseTable t))) := by
  constructor
  · unfold loadDataset applyFlags autoscale
    cases hc : center (mkTrainingSet (reparseTable t)) with
    | error e => simp [hc, Except.map, Except.bind]
    | ok d => simp [hc, Except.map, Except.bind]
  · rfl

/-- The claim shape invariants after fit: the fitted model has as many
score rows as samples in both spaces, as many x-loading rows as
x-variables and as many y-loading rows as y-variables, and its recorded
n, m, p agree with the input matrices. -/
theorem nipals_shape_invariants (X Y : Mat) :
    (nipals X Y).T.length = X.length
    ∧ (nipals X Y).U.length = X.length
    ∧ (nipals X Y).P.length = ncols X
    ∧ (nipals X Y).Q.length = ncols Y
    ∧ (nipals X Y).n = X.length ∧ (nipals X Y).m = ncols X ∧ (nipals X Y).p = ncols Y
    ∧ (nipals X Y).T.length = (nipals X Y).n
    ∧ (nipals X Y).U.length = (nipals X Y).n
    ∧ (nipals X Y).P.length = (nipals X Y).m
    ∧ (nipals X Y).Q.length = (nipals X Y).p := by
  refine ⟨?_, ?_, ?_, ?_, rfl, rfl, rfl, ?_, ?_, ?_, ?_⟩ <;>
    simp [nipals, mkRows]

theorem load_unfold (w : Workspace) :
    load w = Except.bind (loadDataset w.data.centered w.data.normalized w.dataset)
      (fun ds => Except.bind (setNrLv (nipals ds.x ds.y) w.data.nr_lv)
        (fun mo => .ok (mo, ds, w.data.split, w.data.sample))) := rfl

/-- The claim that over-requesting latent variables raises
InvalidConfiguration: the nr_lv setter succeeds exactly up to the
extracted count and errors beyond it, the saved nr_lv assignment inside
load propagates that error, and the unconditional nr_lv assignment of
t_square_q errors on any model with fewer than three extracted latent
variables. -/
theorem nr_lv_invalid_configuration :
    (∀ (mo : Model) (v : ℕ),
      (v ≤ mo.lv → setNrLv mo v = .ok { mo with nr_lv := v })
      ∧ (mo.lv < v → setNrLv mo v = .error .invalidConfiguration))
    ∧ (∀ (w : Workspace) (ds : TrainingSet),
        loadDataset w.data.centered w.data.normalized w.dataset = .ok ds →
        (nipals ds.x ds.y).lv < w.data.nr_lv →
        load w = .error .invalidConfiguration)
    ∧ (∀ (env : PlotEnv) (ax : Ax),
        env.model.lv < 3 → t_square_q env ax = .error .invalidConfiguration) := by
  refine ⟨?_, ?_, ?_⟩
  · intro mo v
    constructor
    · intro h
      unfold setNrLv
      rw [if_neg (by omega)]
    · intro h
      unfold setNrLv
      rw [if_pos h]
  · intro w ds hds hlt
    rw [load_unfold, hds]
    show Except.bind (setNrLv (nipals ds.x ds.y) w.data.nr_lv) _ = _
    unfold setNrLv
    rw [if_pos hlt]
    rfl
  · intro env ax h
    unfold t_square_q setNrLv
    rw [if_pos h]
    rfl

/-- Witness for the InvalidConfiguration theorem: a two-sample
one-variable fit extracts one latent variable, so requesting two errors,
the T-squared plot errors on it, and reloading a workspace whose saved
nr_lv is five errors. -/
theorem nr_lv_invalid_configuration_witness :
    setNrLv (nipals [[1], [2]] [[1], [0]]) 2 = .error .invalidConfiguration
    ∧ t_square_q ⟨nipals [[1], [2]] [[1], [0]], mkTrainingSet ⟨[], []⟩⟩ [] =
        .error .invalidConfiguration
    ∧ load ⟨⟨["n", "x"], [[.str "A", .num 1], [.str "B", .num 2]]⟩,
        ⟨5, false, false, 0, 0⟩⟩ = .error .invalidConfiguration :=
  ⟨(nr_lv_invalid_configuration.1 (nipals [[1], [2]] [[1], [0]]) 2).2 (by decide),
   nr_lv_invalid_configuration.2.2 ⟨nipals [[1], [2]] [[1], [0]], mkTrainingSet ⟨[], []⟩⟩ []
     (by decide),
   nr_lv_invalid_configuration.2.1
     ⟨⟨["n", "x"], [[.str "A", .num 1], [.str "B", .num 2]]⟩, ⟨5, false, false, 0, 0⟩⟩
     (mkTrainingSet (reparseTable ⟨["n", "x"], [[.str "A", .num 1], [.str "B", .num 2]]⟩))
     (by decide) (by decide)⟩

theorem map_fix {α : Type} (f : α → α) (l : List α) (h : ∀ a ∈ l, f a = a) :
    l.map f = l := by
  induction l with
  | nil => rfl
  | cons a t ih =>
    simp only [List.map_cons]
    rw [h a (by simp), ih (fun b hb => h b (by simp [hb]))]

theorem reparse_fixpoint (t : Table)
    (hp : ∀ row ∈ t.body, ∀ cell ∈ row, reparseCell cell = cell) :
    reparseTable t = t := by
  unfold reparseTable
  have hb : t.body.map (List.map reparseCell) = t.body :=
    map_fix _ _ (fun row hrow => map_fix _ _ (hp row hrow))
  rw [hb]

theorem applyFlags_fields (c n : Bool) (ds0 ds : TrainingSet)
    (h0 : ds0.centered = false) (h1 : ds0.normalized = false)
    (h : applyFlags c n ds0 = .ok ds) :
    ds.header = ds0.header ∧ ds.body = ds0.body ∧ ds.centered = c ∧ ds.normalized = n := by
  unfold applyFlags center normalize at h
  cases c <;> cases n <;>
    simp only [Bool.false_eq_true, if_false, if_true, h0, pure, Except.pure,
      Except.bind, bind] at h <;>
    cases h <;> simp [h0, h1]

/-- The claim persistence round-trip: a training set built from a parsed
table and preprocessed according to the two flags, fitted, saved with
dump and reloaded with load yields back exactly the same dataset and a
model with the same T, U, P, Q, W, b and the saved nr_lv, because load
re-parses the saved raw table, re-applies the recorded preprocessing in
order, refits deterministically and restores nr_lv through the
setter. -/
theorem dump_load_roundtrip (tbl : Table) (c n : Bool) (k split sample : ℕ)
    (hp : ∀ row ∈ tbl.body, ∀ cell ∈ row, reparseCell cell = cell)
    (ds : TrainingSet)
    (hds : applyFlags c n (mkTrainingSet tbl) = .ok ds)
    (hk : k ≤ (nipals ds.x ds.y).lv) :
    load (dump { nipals ds.x ds.y with nr_lv := k } ds split sample) =
      .ok ({ nipals ds.x ds.y with nr_lv := k }, ds, split, sample) := by
  obtain ⟨hh, hb, hcent, hnorm⟩ :=
    applyFlags_fields c n (mkTrainingSet tbl) ds rfl rfl hds
  have h1 : loadDataset ds.centered ds.normalized ⟨ds.header, ds.body⟩ = .ok ds := by
    unfold loadDataset
    rw [hcent, hnorm, hh, hb]
    show applyFlags c n (mkTrainingSet (reparseTable tbl)) = .ok ds
    rw [reparse_fixpoint tbl hp]
    exact hds
  rw [load_unfold]
  dsimp only [dump]
  rw [h1]
  show Except.bind (setNrLv (nipals ds.x ds.y) k) _ = _
  unfold setNrLv
  rw [if_neg (not_lt.mpr hk)]
  rfl

def c1Tbl : Table :=
  { header := ["name", "x1"],
    body := [[.str "A", .num 1], [.str "B", .num 3]] }

def c1Ds : TrainingSet :=
  { header := ["name", "x1"],
    body := [[.str "A", .num 1], [.str "B", .num 3]],
    categorical_y := ["A", "B"],
    categories := ["A", "B"],
    x := [[-1], [1]],
    y := [[1, -1], [-1, 1]],
    xMeans := [2],
    yMeans := [1/2, 1/2],
    centered := true,
    normalized := true }

/-- Witness for the round-trip theorem: a concrete two-sample autoscaled
table whose model is dumped with nr_lv one and reloaded unchanged. -/
theorem dump_load_roundtrip_witness :
    load (dump { nipals c1Ds.x c1Ds.y with nr_lv := 1 } c1Ds 0 0) =
      .ok ({ nipals c1Ds.x c1Ds.y with nr_lv := 1 }, c1Ds, 0, 0) :=
  dump_load_roundtrip c1Tbl true true 1 0 0 (by decide) c1Ds (by decide) (by decide)

/-- The claim type guard with no-op on error: each update_global
function assigns its own global exactly on a value of the expected
class, leaves every global untouched and appends a logged error on any
other value, and never touches the other three globals. -/
theorem update_global_type_guard :
    (∀ (st : GlobalState) (v : PyVal),
      (∀ mo, v = .model mo → update_global_model st v = { st with MODEL := some mo })
      ∧ ((∀ mo, v ≠ .model mo) →
          update_global_model st v =
            { st with log := st.log ++ ["Wrong type in update_global_model()."] })
      ∧ (update_global_model st v).TRAIN_SET = st.TRAIN_SET
      ∧ (update_global_model st v).TEST_SET = st.TEST_SET
      ∧ (update_global_model st v).STATS = st.STATS)
    ∧ (∀ (st : GlobalState) (v : PyVal),
      (∀ ts, v = .trainingSet ts → update_global_train_set st v = { st with TRAIN_SET := some ts })
      ∧ ((∀ ts, v ≠ .trainingSet ts) →
          update_global_train_set st v =
            { st with log := st.log ++ ["Wrong type in update_global_model()."] })
      ∧ (update_global_train_set st v).MODEL = st.MODEL
      ∧ (update_global_train_set st v).TEST_SET = st.TEST_SET
      ∧ (update_global_train_set st v).STATS = st.STATS)
    ∧ (∀ (st : GlobalState) (v : PyVal),
      (∀ ts, v = .testSet ts → update_global_test_set st v = { st with TEST_SET := some ts })
      ∧ ((∀ ts, v ≠ .testSet ts) →
          update_global_test_set st v =
            { st with log := st.log ++ ["Wrong type in update_global_model()."] })
      ∧ (update_global_test_set st v).MODEL = st.MODEL
      ∧ (update_global_test_set st v).TRAIN_SET = st.TRAIN_SET
      ∧ (update_global_test_set st v).STATS = st.STATS)
    ∧ (∀ (st : GlobalState) (v : PyVal),
      (∀ s, v = .statistics s → update_global_statistics st v = { st with STATS := some s })
      ∧ ((∀ s, v ≠ .statistics s) →
          update_global_statistics st v =
            { st with log := st.log ++ ["Wrong type in update_global_model()."] })
      ∧ (update_global_statistics st v).MODEL = st.MODEL
      ∧ (update_global_statistics st v).TRAIN_SET = st.TRAIN_SET
      ∧ (update_global_statistics st v).TEST_SET = st.TEST_SET) := by
  refine ⟨?_, ?_, ?_, ?_⟩ <;> intro st v <;>
    refine ⟨?_, ?_, ?_, ?_, ?_⟩ <;>
    cases v <;>
    simp [update_global_model, update_global_train_set,
      update_global_test_set, update_global_statistics]

/-- Witness for the type-guard theorem: assigning a model stores it and
assigning a non-model value leaves MODEL at none and logs the error. -/
theorem update_global_type_guard_witness :
    update_global_model ⟨none, none, none, none, []⟩
        (.model (nipals [[1], [2]] [[1], [0]])) =
      { MODEL := some (nipals [[1], [2]] [[1], [0]]), TRAIN_SET := none,
        TEST_SET := none, STATS := none, log := [] }
    ∧ update_global_model ⟨none, none, none, none, []⟩ (.other "NoneType") =
      { MODEL := none, TRAIN_SET := none, TEST_SET := none, STATS := none,
        log := ["Wrong type in update_global_model()."] } :=
  ⟨(update_global_type_guard.1 ⟨none, none, none, none, []⟩
      (.model (nipals [[1], [2]] [[1], [0]]))).1 _ rfl,
   (update_global_type_guard.1 ⟨none, none, none, none, []⟩ (.other "NoneType")).2.1
     (by intro mo h; cases h)⟩

/-- The claim component-pair argument-order insensitivity: scores,
loadings and weights normalize their two component arguments to
(min, max), so swapping the arguments yields the identical result, and
calling any of the three with equal components raises ValueError. -/
theorem component_pair_symmetry :
    (∀ (env : PlotEnv) (ax : Ax) (a b : ℤ) (x y nz : Bool),
      scores env ax a b x y nz = scores env ax b a x y nz)
    ∧ (∀ (env : PlotEnv) (ax : Ax) (a b : ℤ) (x y : Bool),
      loadings env ax a b x y = loadings env ax b a x y)
    ∧ (∀ (env : PlotEnv) (ax : Ax) (a b : ℤ),
      weights env ax a b = weights env ax b a)
    ∧ (∀ (env : PlotEnv) (ax : Ax) (a : ℤ) (x y nz : Bool),
      isValueError (scores env ax a a x y nz) = true)
    ∧ (∀ (env : PlotEnv) (ax : Ax) (a : ℤ) (x y : Bool),
      isValueError (loadings env ax a a x y) = true)
    ∧ (∀ (env : PlotEnv) (ax : Ax) (a : ℤ),
      weights env ax a a = .error (.valueError "Principal components must be different!")) := by
  refine ⟨?_, ?_, ?_, ?_, ?_, ?_⟩
  · intro env ax a b x y nz
    unfold scores
    by_cases hxy : x = y
    · rw [if_pos hxy, if_pos hxy]
    · rw [if_neg hxy, if_neg hxy]
      by_cases hab : a = b
      · rw [if_pos hab, if_pos hab.symm]
      · rw [if_neg hab, if_neg (show ¬b = a from fun h => hab h.symm),
          min_comm b a, max_comm b a]
  · intro env ax a b x y
    unfold loadings
    by_cases hxy : x = y
    · rw [if_pos hxy, if_pos hxy]
    · rw [if_neg hxy, if_neg hxy]
      by_cases hab : a = b
      · rw [if_pos hab, if_pos hab.symm]
      · rw [if_neg hab, if_neg (show ¬b = a from fun h => hab h.symm),
          min_comm b a, max_comm b a]
  · intro env ax a b
    unfold weights
    by_cases hab : a = b
    · rw [if_pos hab, if_pos hab.symm]
    · rw [if_neg hab, if_neg (show ¬b = a from fun h => hab h.symm),
        min_comm b a, max_comm b a]
  · intro env ax a x y nz
    unfold scores
    by_cases hxy : x = y
    · rw [if_pos hxy]; rfl
    · rw [if_neg hxy, if_pos rfl]; rfl
  · intro env ax a x y
    unfold loadings
    by_cases hxy : x = y
    · rw [if_pos hxy]; rfl
    · rw [if_neg hxy, if_pos rfl]; rfl
  · intro env ax a
    unfold weights
    rw [if_pos rfl]

/-- The claim mat2str totality: for every input value mat2str returns a
string (never an exception), passing through the rendered ascii table
when the try body succeeds, and falling back to the str rendering plus a
logged warning when the try body raises, because the return in the
finally block swallows the exception. -/
theorem mat2str_total :
    (∀ d : MatData, isOkE (mat2str d) = true)
    ∧ (∀ d s, mat2strTry d = .ok s → mat2str d = .ok (s, []))
    ∧ (∀ d e, mat2strTry d = .error e → mat2str d = .ok (pyStrData d, [warnStr e])) := by
  refine ⟨?_, ?_, ?_⟩
  · intro d
    unfold mat2str
    cases h : mat2strTry d <;> rfl
  · intro d s h
    unfold mat2str
    rw [h]
  · intro d e h
    unfold mat2str
    rw [h]

/-- Witness for the mat2str totality theorem: a supported
one-dimensional array renders as the ascii table with no warning, and a
list with a string cell (rejected by the format spec) falls back to the
str rendering with the warning logged. -/
theorem mat2str_total_witness :
    mat2str (.nd1 [0]) =
      .ok ("+------------+\n|  0.000e+00 |\n+------------+", [])
    ∧ mat2str (.pylist [.num 1, .str "x"]) =
      .ok (pyStrData (.pylist [.num 1, .str "x"]),
        ["Unknown format code e for object of type str"]) :=
  ⟨mat2str_total.2.1 (.nd1 [0])
      "+------------+\n|  0.000e+00 |\n+------------+" (by decide),
   mat2str_total.2.2 (.pylist [.num 1, .str "x"])
      (.valueError "Unknown format code e for object of type str") (by decide)⟩

/-!  Generic lemmas on the Except plumbing of the plot embedding. -/

theorem isOkE_exists {α : Type} (r : Except PyErr α) :
    isOkE r = true ↔ ∃ v, r = .ok v := by
  cases r <;> simp [isOkE]

theorem isOkE_bind {α β : Type} (r : Except PyErr α) (k : α → Except PyErr β) :
    isOkE (r >>= k) = true ↔ ∃ v, r = .ok v ∧ isOkE (k v) = true := by
  cases r <;> simp [isOkE, Bind.bind, Except.bind]

theorem withEnv_fst (env : PlotEnv) (r : Except PyErr Ax) (p : PlotEnv × Ax)
    (h : withEnv env r = .ok p) : p.1 = env := by
  unfold withEnv at h
  cases r with
  | error e => exact absurd h (by simp [Except.map])
  | ok ax =>
    simp only [Except.map] at h
    cases h
    rfl

theorem isOkE_withEnv (env : PlotEnv) (r : Except PyErr Ax) :
    isOkE (withEnv env r) = isOkE r := by
  cases r <;> rfl

theorem npIdx_ok {α : Type} (l : List α) (i : ℕ) (h : i < l.length) :
    ∃ v, npIdx l i = .ok v := by
  unfold npIdx
  cases hg : l.get? i with
  | none => exact absurd (List.get?_eq_none.mp hg) (by omega)
  | some v => exact ⟨v, rfl⟩

/-- Validity of a possibly negative numpy index against a column
count. -/
def zIdxOk (i : ℤ) (c : ℕ) : Prop :=
  0 ≤ (if i < 0 then i + c else i) ∧ (if i < 0 then i + c else i) < (c : ℤ)

instance (i : ℤ) (c : ℕ) : Decidable (zIdxOk i c) :=
  inferInstanceAs (Decidable (_ ∧ _))

theorem npCol_ok (M : Mat) (i : ℤ) (h : zIdxOk i (ncols M)) :
    ∃ v, npCol M i = .ok v ∧ v.length = M.length := by
  unfold zIdxOk at h
  unfold npCol
  rw [if_pos h]
  exact ⟨_, rfl, by simp [colOf]⟩

theorem npIdx2_ok (M : Mat) (i : ℕ) (j : ℤ) (row : List ℚ)
    (hrow : M.get? i = some row) (hj : zIdxOk j row.length) :
    ∃ v, npIdx2 M i j = .ok v := by
  unfold zIdxOk at hj
  unfold npIdx2 npIdx
  rw [hrow]
  show ∃ v, (Except.ok row >>= _) = .ok v
  refine ⟨row.getD (if j < 0 then j + row.length else j).toNat 0, ?_⟩
  show (if 0 ≤ (if j < 0 then j + row.length else j) ∧
      (if j < 0 then j + row.length else j) < (row.length : ℤ) then _ else _) = _
  rw [if_pos hj]
  rfl

theorem npMax_ok (l : List ℚ) (h : l ≠ []) : ∃ v, npMax l = .ok v := by
  cases l with
  | nil => exact absurd rfl h
  | cons a t => exact ⟨t.foldl max a, rfl⟩

theorem foldlM_ok {α β : Type} (f : β → α → Except PyErr β) (l : List α)
    (h : ∀ b, ∀ a ∈ l, isOkE (f b a) = true) :
    ∀ b, isOkE (l.foldlM f b) = true := by
  induction l with
  | nil => intro b; rfl
  | cons a t ih =>
    intro b
    rw [List.foldlM_cons, isOkE_bind]
    obtain ⟨v, hv⟩ := (isOkE_exists (f b a)).mp (h b a (by simp))
    exact ⟨v, hv, ih (fun b' a' ha' => h b' a' (by simp [ha'])) v⟩

theorem setNrLv_ok_eq (mo : Model) (v : ℕ) (mo' : Model)
    (h : setNrLv mo v = .ok mo') : mo' = { mo with nr_lv := v } := by
  unfold setNrLv at h
  by_cases hv : mo.lv < v
  · rw [if_pos hv] at h
    exact absurd h (by simp)
  · rw [if_neg hv] at h
    cases h
    rfl

/-!  Frame lemmas: every plot function returns the globals it was given,
except t_square_q which reassigns only nr_lv. -/

theorem scree_fst (env : PlotEnv) (ax : Ax) (x y : Bool) (p : PlotEnv × Ax)
    (h : scree env ax x y = .ok p) : p.1 = env := by
  unfold scree at h
  by_cases hxy : x = y
  · rw [if_pos hxy] at h; exact absurd h (by simp)
  · rw [if_neg hxy] at h; exact withEnv_fst _ _ _ h

theorem cumulative_explained_variance_fst (env : PlotEnv) (ax : Ax) (x y : Bool)
    (p : PlotEnv × Ax) (h : cumulative_explained_variance env ax x y = .ok p) :
    p.1 = env := by
  unfold cumulative_explained_variance at h
  by_cases hxy : x = y
  · rw [if_pos hxy] at h; exact absurd h (by simp)
  · rw [if_neg hxy] at h; exact withEnv_fst _ _ _ h

theorem inner_relations_fst (env : PlotEnv) (ax : Ax) (num : ℤ) (p : PlotEnv × Ax)
    (h : inner_relations env ax num = .ok p) : p.1 = env := by
  unfold inner_relations at h
  by_cases hn : (env.model.nr_lv : ℤ) < num
  · rw [if_pos hn] at h; exact absurd h (by simp)
  · rw [if_neg hn] at h; exact withEnv_fst _ _ _ h

theorem scores_fst (env : PlotEnv) (ax : Ax) (a b : ℤ) (x y nz : Bool)
    (p : PlotEnv × Ax) (h : scores env ax a b x y nz = .ok p) : p.1 = env := by
  unfold scores at h
  by_cases hxy : x = y
  · rw [if_pos hxy] at h; exact absurd h (by simp)
  · rw [if_neg hxy] at h
    by_cases hab : a = b
    · rw [if_pos hab] at h; exact absurd h (by simp)
    · rw [if_neg hab] at h; exact withEnv_fst _ _ _ h

theorem loadings_fst (env : PlotEnv) (ax : Ax) (a b : ℤ) (x y : Bool)
    (p : PlotEnv × Ax) (h : loadings env ax a b x y = .ok p) : p.1 = env := by
  unfold loadings at h
  by_cases hxy : x = y
  · rw [if_pos hxy] at h; exact absurd h (by simp)
  · rw [if_neg hxy] at h
    by_cases hab : a = b
    · rw [if_pos hab] at h; exact absurd h (by simp)
    · rw [if_neg hab] at h; exact withEnv_fst _ _ _ h

theorem weights_fst (env : PlotEnv) (ax : Ax) (a b : ℤ) (p : PlotEnv × Ax)
    (h : weights env ax a b = .ok p) : p.1 = env := by
  unfold weights at h
  by_cases hab : a = b
  · rw [if_pos hab] at h; exact absurd h (by simp)
  · rw [if_neg hab] at h; exact withEnv_fst _ _ _ h

theorem biplot_fst (env : PlotEnv) (ax : Ax) (a b : ℤ) (x y nz : Bool)
    (p : PlotEnv × Ax) (h : biplot env ax a b x y nz = .ok p) : p.1 = env := by
  unfold biplot at h
  by_cases hxy : x = y
  · rw [if_pos hxy] at h; exact absurd h (by simp)
  · rw [if_neg hxy] at h
    by_cases hab : a = b
    · rw [if_pos hab] at h; exact absurd h (by simp)
    · rw [if_neg hab] at h
      cases hs : scores env ax a b x y nz with
      | error e => rw [hs] at h; exact absurd h (by simp [Bind.bind, Except.bind])
      | ok r1 =>
        rw [hs] at h
        simp only [Bind.bind, Except.bind] at h
        cases hl : loadings r1.1 r1.2 a b x y with
        | error e => rw [hl] at h; exact absurd h (by simp [Except.bind])
        | ok r2 =>
          rw [hl] at h
          have h2 := withEnv_fst _ _ _ h
          rw [h2, loadings_fst _ _ _ _ _ _ _ hl, scores_fst _ _ _ _ _ _ _ _ hs]

theorem calculated_y_fst (env : PlotEnv) (ax : Ax) (p : PlotEnv × Ax)
    (h : calculated_y env ax = .ok p) : p.1 = env :=
  withEnv_fst _ _ _ h

theorem y_residuals_leverage_fst (env : PlotEnv) (ax : Ax) (p : PlotEnv × Ax)
    (h : y_residuals_leverage env ax = .ok p) : p.1 = env :=
  withEnv_fst _ _ _ h

theorem leverage_fst (env : PlotEnv) (ax : Ax) (p : PlotEnv × Ax)
    (h : leverage env ax = .ok p) : p.1 = env :=
  withEnv_fst _ _ _ h

theorem regression_coefficients_fst (env : PlotEnv) (ax : Ax) (p : PlotEnv × Ax)
    (h : regression_coefficients env ax = .ok p) : p.1 = env :=
  withEnv_fst _ _ _ h

theorem weights_line_fst (env : PlotEnv) (ax : Ax) (lv : ℤ) (p : PlotEnv × Ax)
    (h : weights_line env ax lv = .ok p) : p.1 = env :=
  withEnv_fst _ _ _ h

theorem data_fst (env : PlotEnv) (ax : Ax) (p : PlotEnv × Ax)
    (h : data env ax = .ok p) : p.1 = env :=
  withEnv_fst _ _ _ h

theorem sklearn_inner_relations_fst (env : PlotEnv) (ax : Ax) (num : ℤ)
    (p : PlotEnv × Ax) (h : sklearn_inner_relations env ax num = .ok p) :
    p.1 = env := by
  unfold sklearn_inner_relations at h
  by_cases hn : (env.model.nr_lv : ℤ) < num
  · rw [if_pos hn] at h; exact absurd h (by simp)
  · rw [if_neg hn] at h; exact withEnv_fst _ _ _ h

theorem t_square_q_frame (env : PlotEnv) (ax : Ax) (p : PlotEnv × Ax)
    (h : t_square_q env ax = .ok p) :
    p.1.model = { env.model with nr_lv := 3 } ∧ p.1.trainSet = env.trainSet := by
  unfold t_square_q at h
  cases hs : setNrLv env.model 3 with
  | error e => rw [hs] at h; exact absurd h (by simp [Bind.bind, Except.bind])
  | ok mo =>
    rw [hs] at h
    simp only [Bind.bind, Except.bind] at h
    have hfst := withEnv_fst _ _ _ h
    have hmo := setNrLv_ok_eq _ _ _ hs
    constructor
    · rw [hfst, hmo]
    · rw [hfst]

/-- The claim fitted-model frame property: every plotting operation of
plot.py that returns leaves the module globals it read — and in
particular every matrix of the fitted model — exactly as it found them,
with the single exception of t_square_q, whose only model assignment is
nr_lv := 3 and which also leaves T, U, P, Q, W, b, E_y unchanged. -/
theorem plot_frame_property :
    (∀ env ax x y p, scree env ax x y = .ok p → p.1 = env)
    ∧ (∀ env ax x y p, cumulative_explained_variance env ax x y = .ok p → p.1 = env)
    ∧ (∀ env ax num p, inner_relations env ax num = .ok p → p.1 = env)
    ∧ (∀ env ax a b x y nz p, scores env ax a b x y nz = .ok p → p.1 = env)
    ∧ (∀ env ax a b x y p, loadings env ax a b x y = .ok p → p.1 = env)
    ∧ (∀ env ax a b x y nz p, biplot env ax a b x y nz = .ok p → p.1 = env)
    ∧ (∀ env ax a b p, weights env ax a b = .ok p → p.1 = env)
    ∧ (∀ env ax p, calculated_y env ax = .ok p → p.1 = env)
    ∧ (∀ env ax p, predicted_y env ax = .ok p → p.1 = env)
    ∧ (∀ env ax p, y_residuals_leverage env ax = .ok p → p.1 = env)
    ∧ (∀ env ax p, leverage env ax = .ok p → p.1 = env)
    ∧ (∀ env ax p, regression_coefficients env ax = .ok p → p.1 = env)
    ∧ (∀ env ax lv p, weights_line env ax lv = .ok p → p.1 = env)
    ∧ (∀ env ax p, data env ax = .ok p → p.1 = env)
    ∧ (∀ env ax num p, sklearn_inner_relations env ax num = .ok p → p.1 = env)
    ∧ (∀ env ax p, t_square_q env ax = .ok p →
        p.1.model.T = env.model.T ∧ p.1.model.U = env.model.U
        ∧ p.1.model.P = env.model.P ∧ p.1.model.Q = env.model.Q
        ∧ p.1.model.W = env.model.W ∧ p.1.model.b = env.model.b
        ∧ p.1.model.E_y = env.model.E_y
        ∧ p.1.model = { env.model with nr_lv := 3 }
        ∧ p.1.trainSet = env.trainSet) := by
  refine ⟨fun env ax x y p h => scree_fst env ax x y p h,
    fun env ax x y p h => cumulative_explained_variance_fst env ax x y p h,
    fun env ax num p h => inner_relations_fst env ax num p h,
    fun env ax a b x y nz p h => scores_fst env ax a b x y nz p h,
    fun env ax a b x y p h => loadings_fst env ax a b x y p h,
    fun env ax a b x y nz p h => biplot_fst env ax a b x y nz p h,
    fun env ax a b p h => weights_fst env ax a b p h,
    fun env ax p h => calculated_y_fst env ax p h,
    fun env ax p h => absurd h (by simp [predicted_y]),
    fun env ax p h => y_residuals_leverage_fst env ax p h,
    fun env ax p h => leverage_fst env ax p h,
    fun env ax p h => regression_coefficients_fst env ax p h,
    fun env ax lv p h => weights_line_fst env ax lv p h,
    fun env ax p h => data_fst env ax p h,
    fun env ax num p h => sklearn_inner_relations_fst env ax num p h,
    fun env ax p h => ?_⟩
  obtain ⟨hm, ht⟩ := t_square_q_frame env ax p h
  rw [hm, ht]
  exact ⟨rfl, rfl, rfl, rfl, rfl, rfl, rfl, rfl, rfl⟩

def c4EnvA : PlotEnv :=
  ⟨{ T := [], U := [], P := [], Q := [], W := [], b := [], E_x := [], E_y := [],
     x_eigenvalues := [1], y_eigenvalues := [], n := 0, m := 0, p := 0,
     lv := 0, nr_lv := 0 },
   mkTrainingSet ⟨[], []⟩⟩

def c4AxA : Ax :=
  [.plotLine [0] [1] "#1F77B4" "o", .setTitle "Scree plot for x",
   .setXlabel "Principal component number", .setYlabel "Eigenvalues",
   .setXlim (-(1 : ℚ)/2) 1, .setYlim (-(1 : ℚ)/2) (3/2)]

def c4EnvB : PlotEnv :=
  ⟨{ T := [[0, 0, 0], [0, 0, 0], [0, 0, 0]], U := [[1, 0, 0], [0, 1, 0], [0, 0, 1]],
     P := [[0, 0, 0]], Q := [], W := [], b := [], E_x := [[0], [0], [0]], E_y := [],
     x_eigenvalues := [], y_eigenvalues := [], n := 3, m := 1, p := 0,
     lv := 3, nr_lv := 0 },
   mkTrainingSet ⟨["n"], [[.str "A"], [.str "B"], [.str "C"]]⟩⟩

def c4AxB : Ax :=
  [.setTitle "T^2 - Q", .setXlabel "Hotellings T^2", .setYlabel "Q residuals",
   .scatter [1] [0] "#1F77B4" "o" (some "A"), .scatter [1] [0] "#2CA02C" "x" (some "B"),
   .scatter [1] [0] "#D62728" "^" (some "C"), .axvline 1, .axhline 0,
   .legend ["A", "B", "C"]]

/-- Witness for the frame theorem: a concrete successful scree call
returns its globals unchanged, and a concrete successful t_square_q call
changes only nr_lv on the model. -/
theorem plot_frame_property_witness :
    ((c4EnvA, c4AxA) : PlotEnv × Ax).1 = c4EnvA
    ∧ (({ c4EnvB with model := { c4EnvB.model with nr_lv := 3 } }, c4AxB) :
          PlotEnv × Ax).1.model.T = c4EnvB.model.T
    ∧ (({ c4EnvB with model := { c4EnvB.model with nr_lv := 3 } }, c4AxB) :
          PlotEnv × Ax).1.model = { c4EnvB.model with nr_lv := 3 } :=
  ⟨plot_frame_property.1 c4EnvA [] true false (c4EnvA, c4AxA) (by decide),
   ((plot_frame_property.2.2.2.2.2.2.2.2.2.2.2.2.2.2.2) c4EnvB []
      ({ c4EnvB with model := { c4EnvB.model with nr_lv := 3 } }, c4AxB)
      (by decide)).1,
   ((plot_frame_property.2.2.2.2.2.2.2.2.2.2.2.2.2.2.2) c4EnvB []
      ({ c4EnvB with model := { c4EnvB.model with nr_lv := 3 } }, c4AxB)
      (by decide)).2.2.2.2.2.2.2.1⟩

/-!  Success lemmas for the flag-checked plot functions. -/

theorem scree_ok (env : PlotEnv) (ax : Ax) (x y : Bool) (hxy : x ≠ y)
    (he : (if x then env.model.x_eigenvalues else env.model.y_eigenvalues) ≠ []) :
    isOkE (scree env ax x y) = true := by
  unfold scree
  rw [if_neg hxy, isOkE_withEnv]
  dsimp only []
  rw [isOkE_bind]
  obtain ⟨v, hv⟩ := npIdx_ok
    (if x then env.model.x_eigenvalues else env.model.y_eigenvalues) 0
    (List.length_pos.mpr he)
  exact ⟨v, hv, rfl⟩

theorem cumulative_explained_variance_ok (env : PlotEnv) (ax : Ax) (x y : Bool)
    (hxy : x ≠ y)
    (he : (if x then env.model.x_eigenvalues else env.model.y_eigenvalues) ≠ []) :
    isOkE (cumulative_explained_variance env ax x y) = true := by
  unfold cumulative_explained_variance
  rw [if_neg hxy, isOkE_withEnv]
  dsimp only []
  rw [isOkE_bind]
  have hev : explained_variance env.model x ≠ [] := by
    unfold explained_variance
    cases x <;> simp_all
  obtain ⟨v, hv⟩ := npIdx_ok (explained_variance env.model x) 0
    (List.length_pos.mpr hev)
  exact ⟨v, hv, rfl⟩

theorem scores_loop_ok (ts : TrainingSet) (sa sb : List ℚ) (n : ℕ) (ax : Ax)
    (ha : n ≤ sa.length) (hb : n ≤ sb.length) (hc : n ≤ ts.categorical_y.length) :
    isOkE ((List.range n).foldlM (fun ax i => do
      let av ← npIdx sa i
      let bv ← npIdx sb i
      let cy ← npIdx ts.categorical_y i
      pure (scatter_wrapper ts ax [av] [bv] (some cy))) ax) = true := by
  apply foldlM_ok
  intro b i hmem
  have hi : i < n := List.mem_range.mp hmem
  obtain ⟨v1, h1⟩ := npIdx_ok sa i (by omega)
  obtain ⟨v2, h2⟩ := npIdx_ok sb i (by omega)
  obtain ⟨v3, h3⟩ := npIdx_ok ts.categorical_y i (by omega)
  rw [isOkE_bind]
  refine ⟨v1, h1, ?_⟩
  rw [isOkE_bind]
  refine ⟨v2, h2, ?_⟩
  rw [isOkE_bind]
  exact ⟨v3, h3, rfl⟩

theorem scores_ok (env : PlotEnv) (ax : Ax) (a b : ℤ) (x y nz : Bool)
    (hxy : x ≠ y) (hab : a ≠ b)
    (ha : zIdxOk (min a b) (ncols (if x then env.model.T else env.model.U)))
    (hb : zIdxOk (max a b) (ncols (if x then env.model.T else env.model.U)))
    (hcy : (if x then env.model.T else env.model.U).length ≤
      env.trainSet.categorical_y.length)
    (hnz : nz = true → (if x then env.model.T else env.model.U) ≠ []) :
    isOkE (scores env ax a b x y nz) = true := by
  unfold scores
  rw [if_neg hxy, if_neg hab, isOkE_withEnv]
  dsimp only []
  obtain ⟨sa, hsa, hsal⟩ := npCol_ok (if x then env.model.T else env.model.U) (min a b) ha
  obtain ⟨sb, hsb, hsbl⟩ := npCol_ok (if x then env.model.T else env.model.U) (max a b) hb
  rw [isOkE_bind]
  refine ⟨sa, hsa, ?_⟩
  rw [isOkE_bind]
  refine ⟨sb, hsb, ?_⟩
  cases nz with
  | false =>
    rw [if_neg Bool.false_ne_true, isOkE_bind]
    refine ⟨(sa, sb), rfl, ?_⟩
    rw [isOkE_bind]
    obtain ⟨axv, haxv⟩ := (isOkE_exists _).mp
      (scores_loop_ok env.trainSet sa sb
        (if x then env.model.T else env.model.U).length ax
        (le_of_eq hsal.symm) (le_of_eq hsbl.symm) hcy)
    exact ⟨axv, haxv, rfl⟩
  | true =>
    have hM : (if x then env.model.T else env.model.U) ≠ [] := hnz rfl
    have hsane : sa ≠ [] := by
      intro hnil
      rw [hnil] at hsal
      exact hM (List.length_eq_zero.mp hsal.symm)
    have hsbne : sb ≠ [] := by
      intro hnil
      rw [hnil] at hsbl
      exact hM (List.length_eq_zero.mp hsbl.symm)
    obtain ⟨ma, hma⟩ := npMax_ok (sa.map abs) (by simpa using hsane)
    obtain ⟨mb, hmb⟩ := npMax_ok (sb.map abs) (by simpa using hsbne)
    rw [if_pos rfl, isOkE_bind]
    refine ⟨ma, hma, ?_⟩
    rw [isOkE_bind]
    refine ⟨mb, hmb, ?_⟩
    rw [isOkE_bind]
    refine ⟨(sa.map (fun v => v / ma), sb.map (fun v => v / mb)), rfl, ?_⟩
    rw [isOkE_bind]
    obtain ⟨axv, haxv⟩ := (isOkE_exists _).mp
      (scores_loop_ok env.trainSet (sa.map (fun v => v / ma)) (sb.map (fun v => v / mb))
        (if x then env.model.T else env.model.U).length ax
        (by rw [List.length_map]; exact le_of_eq hsal.symm)
        (by rw [List.length_map]; exact le_of_eq hsbl.symm) hcy)
    exact ⟨axv, haxv, rfl⟩

theorem loadings_loop_ok (ts : TrainingSet) (M : Mat) (a' b' : ℤ) (n : ℕ) (ax : Ax)
    (hn : n ≤ M.length) (hh : n < ts.header.length)
    (hrect : ∀ row ∈ M, row.length = ncols M)
    (ha : zIdxOk a' (ncols M)) (hb : zIdxOk b' (ncols M)) :
    isOkE ((List.range n).foldlM (fun ax i => do
      let nm ← npIdx ts.header (i + 1)
      let xa ← npIdx2 M i a'
      let xb ← npIdx2 M i b'
      pure (ax ++ [AxCmd.annotate nm xa xb])) ax) = true := by
  apply foldlM_ok
  intro b i hmem
  have hi : i < n := List.mem_range.mp hmem
  obtain ⟨v1, h1⟩ := npIdx_ok ts.header (i + 1) (by omega)
  have hiM : i < M.length := by omega
  have hrow : M.get? i = some (M.get ⟨i, hiM⟩) := List.get?_eq_get hiM
  have hrl : (M.get ⟨i, hiM⟩).length = ncols M := hrect _ (M.get_mem i hiM)
  obtain ⟨v2, h2⟩ := npIdx2_ok M i a' _ hrow (by rw [hrl]; exact ha)
  obtain ⟨v3, h3⟩ := npIdx2_ok M i b' _ hrow (by rw [hrl]; exact hb)
  rw [isOkE_bind]
  refine ⟨v1, h1, ?_⟩
  rw [isOkE_bind]
  refine ⟨v2, h2, ?_⟩
  rw [isOkE_bind]
  exact ⟨v3, h3, rfl⟩

theorem loadings_ok (env : PlotEnv) (ax : Ax) (a b : ℤ) (x y : Bool)
    (hxy : x ≠ y) (hab : a ≠ b)
    (ha : zIdxOk (min a b) (ncols (if x then env.model.P else env.model.Q)))
    (hb : zIdxOk (max a b) (ncols (if x then env.model.P else env.model.Q)))
    (hh : (if x then env.model.P else env.model.Q).length < env.trainSet.header.length)
    (hrect : ∀ row ∈ (if x then env.model.P else env.model.Q),
      row.length = ncols (if x then env.model.P else env.model.Q)) :
    isOkE (loadings env ax a b x y) = true := by
  unfold loadings
  rw [if_neg hxy, if_neg hab, isOkE_withEnv]
  dsimp only []
  obtain ⟨ca, hca, hcal⟩ := npCol_ok (if x then env.model.P else env.model.Q) (min a b) ha
  obtain ⟨cb, hcb, hcbl⟩ := npCol_ok (if x then env.model.P else env.model.Q) (max a b) hb
  rw [isOkE_bind]
  refine ⟨ca, hca, ?_⟩
  rw [isOkE_bind]
  refine ⟨cb, hcb, ?_⟩
  rw [isOkE_bind]
  obtain ⟨axv, haxv⟩ := (isOkE_exists _).mp
    (loadings_loop_ok env.trainSet (if x then env.model.P else env.model.Q)
      (min a b) (max a b) (if x then env.model.P else env.model.Q).length
      (scatter_wrapper env.trainSet ax ca cb none)
      le_rfl hh hrect ha hb)
  exact ⟨axv, haxv, rfl⟩

theorem biplot_ok (env : PlotEnv) (ax : Ax) (a b : ℤ) (x y nz : Bool)
    (hxy : x ≠ y) (hab : a ≠ b)
    (hsa : zIdxOk (min a b) (ncols (if x then env.model.T else env.model.U)))
    (hsb : zIdxOk (max a b) (ncols (if x then env.model.T else env.model.U)))
    (hscy : (if x then env.model.T else env.model.U).length ≤
      env.trainSet.categorical_y.length)
    (hsnz : nz = true → (if x then env.model.T else env.model.U) ≠ [])
    (hla : zIdxOk (min a b) (ncols (if x then env.model.P else env.model.Q)))
    (hlb : zIdxOk (max a b) (ncols (if x then env.model.P else env.model.Q)))
    (hlh : (if x then env.model.P else env.model.Q).length < env.trainSet.header.length)
    (hlrect : ∀ row ∈ (if x then env.model.P else env.model.Q),
      row.length = ncols (if x then env.model.P else env.model.Q)) :
    isOkE (biplot env ax a b x y nz) = true := by
  unfold biplot
  rw [if_neg hxy, if_neg hab, isOkE_bind]
  obtain ⟨r1, hr1⟩ := (isOkE_exists _).mp
    (scores_ok env ax a b x y nz hxy hab hsa hsb hscy hsnz)
  refine ⟨r1, hr1, ?_⟩
  have he1 : r1.1 = env := scores_fst _ _ _ _ _ _ _ _ hr1
  rw [he1, isOkE_bind]
  obtain ⟨r2, hr2⟩ := (isOkE_exists _).mp
    (loadings_ok env r1.2 a b x y hxy hab hla hlb hlh hlrect)
  refine ⟨r2, hr2, ?_⟩
  rw [isOkE_withEnv]
  rfl

/-- Counterexample to the claim that the five flag-checked plot
functions raise ValueError exactly when the two flags agree and proceed
to plot otherwise: with flags differing (true versus false), scores on
an equal component pair still raises ValueError, and scree on a model
with an empty eigenvalue sequence raises IndexError instead of
plotting. -/
theorem xy_flag_validity_counterexample :
    scores ⟨nipals [] [], mkTrainingSet ⟨[], []⟩⟩ [] 0 0 true false false =
      .error (.valueError "Principal components must be different!")
    ∧ (true : Bool) ≠ false
    ∧ scree ⟨nipals [] [], mkTrainingSet ⟨[], []⟩⟩ [] true false = .error .indexError
    ∧ isValueError (scree ⟨nipals [] [], mkTrainingSet ⟨[], []⟩⟩ [] true false) = false :=
  ⟨by decide, by decide, by decide, by decide⟩

/-- Amended x/y flag validity: each of the five plot functions taking
the mutually exclusive flag pair raises ValueError whenever the two
flags agree; scores, loadings and biplot additionally raise ValueError
when the two components coincide even with valid flags; and when the
flags differ the function plots the selected space provided its data is
consistent — a nonempty selected eigenvalue sequence for scree and
cumulative_explained_variance, and in-range components, enough category
labels or header names and rectangular matrices for scores, loadings
and biplot. -/
theorem xy_flag_validity_amended :
    (∀ env ax (x y : Bool), x = y → scree env ax x y =
      .error (.valueError "In plot.scree() x, y matrix flags must differ"))
    ∧ (∀ env ax (x y : Bool), x = y → cumulative_explained_variance env ax x y =
      .error (.valueError "In plot.explained_variance() x, y matrix flags does not differ"))
    ∧ (∀ env ax (a b : ℤ) (x y nz : Bool), x = y → scores env ax a b x y nz =
      .error (.valueError "In plot.scores() x, y matrix flags must differ"))
    ∧ (∀ env ax (a b : ℤ) (x y : Bool), x = y → loadings env ax a b x y =
      .error (.valueError "In plot.loadings() x, y matrix flags must differ"))
    ∧ (∀ env ax (a b : ℤ) (x y nz : Bool), x = y → biplot env ax a b x y nz =
      .error (.valueError "In plot.biplot() x, y matrix flags must differ"))
    ∧ (∀ env ax (a : ℤ) (x y nz : Bool), x ≠ y →
        scores env ax a a x y nz =
          .error (.valueError "Principal components must be different!")
        ∧ loadings env ax a a x y =
          .error (.valueError "Principal components must be different!")
        ∧ biplot env ax a a x y nz =
          .error (.valueError "Principal components must be different!"))
    ∧ (∀ env ax (x y : Bool), x ≠ y →
        (if x then env.model.x_eigenvalues else env.model.y_eigenvalues) ≠ [] →
        isOkE (scree env ax x y) = true
        ∧ isOkE (cumulative_explained_variance env ax x y) = true)
    ∧ (∀ env ax (a b : ℤ) (x y nz : Bool), x ≠ y → a ≠ b →
        zIdxOk (min a b) (ncols (if x then env.model.T else env.model.U)) →
        zIdxOk (max a b) (ncols (if x then env.model.T else env.model.U)) →
        (if x then env.model.T else env.model.U).length ≤
          env.trainSet.categorical_y.length →
        (nz = true → (if x then env.model.T else env.model.U) ≠ []) →
        isOkE (scores env ax a b x y nz) = true)
    ∧ (∀ env ax (a b : ℤ) (x y : Bool), x ≠ y → a ≠ b →
        zIdxOk (min a b) (ncols (if x then env.model.P else env.model.Q)) →
        zIdxOk (max a b) (ncols (if x then env.model.P else env.model.Q)) →
        (if x then env.model.P else env.model.Q).length <
          env.trainSet.header.length →
        (∀ row ∈ (if x then env.model.P else env.model.Q),
          row.length = ncols (if x then env.model.P else env.model.Q)) →
        isOkE (loadings env ax a b x y) = true)
    ∧ (∀ env ax (a b : ℤ) (x y nz : Bool), x ≠ y → a ≠ b →
        zIdxOk (min a b) (ncols (if x then env.model.T else env.model.U)) →
        zIdxOk (max a b) (ncols (if x then env.model.T else env.model.U)) →
        (if x then env.model.T else env.model.U).length ≤
          env.trainSet.categorical_y.length →
        (nz = true → (if x then env.model.T else env.model.U) ≠ []) →
        zIdxOk (min a b) (ncols (if x then env.model.P else env.model.Q)) →
        zIdxOk (max a b) (ncols (if x then env.model.P else env.model.Q)) →
        (if x then env.model.P else env.model.Q).length <
          env.trainSet.header.length →
        (∀ row ∈ (if x then env.model.P else env.model.Q),
          row.length = ncols (if x then env.model.P else env.model.Q)) →
        isOkE (biplot env ax a b x y nz) = true) := by
  refine ⟨?_, ?_, ?_, ?_, ?_, ?_, ?_, ?_, ?_, ?_⟩
  · intro env ax x y h
    unfold scree
    rw [if_pos h]
  · intro env ax x y h
    unfold cumulative_explained_variance
    rw [if_pos h]
  · intro env ax a b x y nz h
    unfold scores
    rw [if_pos h]
  · intro env ax a b x y h
    unfold loadings
    rw [if_pos h]
  · intro env ax a b x y nz h
    unfold biplot
    rw [if_pos h]
  · intro env ax a x y nz h
    refine ⟨?_, ?_, ?_⟩
    · unfold scores
      rw [if_neg h, if_pos rfl]
    · unfold loadings
      rw [if_neg h, if_pos rfl]
    · unfold biplot
      rw [if_neg h, if_pos rfl]
  · intro env ax x y hxy he
    exact ⟨scree_ok env ax x y hxy he,
      cumulative_explained_variance_ok env ax x y hxy he⟩
  · intro env ax a b x y nz hxy hab ha hb hcy hnz
    exact scores_ok env ax a b x y nz hxy hab ha hb hcy hnz
  · intro env ax a b x y hxy hab ha hb hh hrect
    exact loadings_ok env ax a b x y hxy hab ha hb hh hrect
  · intro env ax a b x y nz hxy hab hsa hsb hscy hsnz hla hlb hlh hlrect
    exact biplot_ok env ax a b x y nz hxy hab hsa hsb hscy hsnz hla hlb hlh hlrect

def c6Env : PlotEnv :=
  ⟨{ T := [[1, 2], [3, 4]], U := [[1, 2], [3, 4]], P := [[1, 2]], Q := [[1, 2]],
     W := [], b := [], E_x := [], E_y := [],
     x_eigenvalues := [1], y_eigenvalues := [], n := 2, m := 1, p := 1,
     lv := 2, nr_lv := 2 },
   mkTrainingSet ⟨["n", "x1"], [[.str "A"], [.str "B"]]⟩⟩

/-- Witness for the amended flag-validity theorem: on a concrete
consistent model both scree and scores succeed with differing flags. -/
theorem xy_flag_validity_amended_witness :
    (isOkE (scree c6Env [] true false) = true
      ∧ isOkE (cumulative_explained_variance c6Env [] true false) = true)
    ∧ isOkE (scores c6Env [] 0 1 true false false) = true
    ∧ isOkE (loadings c6Env [] 0 1 true false) = true
    ∧ isOkE (biplot c6Env [] 0 1 true false false) = true :=
  ⟨xy_flag_validity_amended.2.2.2.2.2.2.1 c6Env [] true false (by decide) (by decide),
   xy_flag_validity_amended.2.2.2.2.2.2.2.1 c6Env [] 0 1 true false false
     (by decide) (by decide) (by decide) (by decide) (by decide) (by decide),
   xy_flag_validity_amended.2.2.2.2.2.2.2.2.1 c6Env [] 0 1 true false
     (by decide) (by decide) (by decide) (by decide) (by decide) (by decide),
   xy_flag_validity_amended.2.2.2.2.2.2.2.2.2 c6Env [] 0 1 true false false
     (by decide) (by decide) (by decide) (by decide) (by decide) (by decide)
     (by decide) (by decide) (by decide) (by decide)⟩

end PLSDA
